import Mathlib

/-! Shaken Fist instance resource: lifecycle reconciliation.

A shallow embedding of `provider/resource_instance.go`: the create, read,
delete and existence handlers of the instance resource, together with
`getInterfaceUUIDs`.

Modelling conventions.

* A Go `error` is an `Option String` (`none` is `nil`); a `(T, error)` result
  is an `Except String T`. `fmt.Errorf("ctx: %v", err)` is string append.
* The remote client (`client-go`) is a record of handlers over an arbitrary
  remote state `σ`; every handler returns its response and the next remote
  state. Each call the provider issues is appended to a call log.
* `*schema.ResourceData` is a record holding the identifier and the
  attributes of the schema; `d.Set` on a schema attribute is a field update.
* `resource.Retry` (terraform-plugin-sdk, `helper/resource`) is a loop bounded
  by the number of attempts that the timeout admits; the world counts the
  retryable iterations. `resource.NonRetryableError(nil)` is nil, which is
  what lets both polls end in success.
* `sort.Slice` (Go standard library) is an argument of the handlers that
  sort; the theorems about the order assume what `sort.Slice` guarantees,
  and the concrete runs use an insertion sort.
-/

namespace Shakenfist

/-! ## Values of the client library -/

/-- A dynamically typed attribute value (`interface{}`) of a map attribute. -/
inductive Value where
  | str (s : String)
  | int (n : Int)
  | bool (b : Bool)
  deriving DecidableEq, Repr

/-- Record `client.DiskSpec`. -/
structure DiskSpec where
  Base : String
  Size : Int
  Bus : String
  Type_ : String
  deriving DecidableEq, Repr

/-- Record `client.NetworkSpec`. -/
structure NetworkSpec where
  NetworkUUID : String
  Address : String
  MACAddress : String
  Model : String
  deriving DecidableEq, Repr

/-- Record `client.VideoSpec`. -/
structure VideoSpec where
  Model : String
  Memory : Int
  deriving DecidableEq, Repr

/-- Record `client.Instance`, with the fields the provider reads. -/
structure Instance where
  UUID : String
  Name : String
  CPUs : Int
  Memory : Int
  DiskSpecs : List DiskSpec
  Video : VideoSpec
  SSHKey : String
  Node : String
  ConsolePort : Int
  VDIPort : Int
  UserData : String
  State : String
  PowerState : String
  deriving DecidableEq, Repr

/-- Record `client.NetworkInterface`, with the fields the provider reads. -/
structure NetworkInterface where
  UUID : String
  NetworkUUID : String
  IPv4 : String
  MACAddress : String
  Model : String
  State : String
  Order : Int
  deriving DecidableEq, Repr

/-- The resource kinds of the metadata calls (`client.TypeInstance`, ...). -/
inductive ResourceType where
  | TypeInstance
  | TypeNetwork
  deriving DecidableEq, Repr

/-- A remote call, as recorded in the call log. -/
inductive Call where
  | CreateInstance (name : String) (cpus memory : Int) (networks : List NetworkSpec)
      (disks : List DiskSpec) (video : VideoSpec) (sshKey userData : String)
  | GetInstance (uuid : String)
  | DeleteInstance (uuid : String)
  | GetInstanceInterfaces (uuid : String)
  | GetInterface (uuid : String)
  | GetMetadata (kind : ResourceType) (uuid : String)
  | SetMetadata (kind : ResourceType) (uuid key value : String)
  deriving DecidableEq, Repr

/-- The remote client: each handler maps the request and the remote state to
the response and the next remote state. -/
structure Client (σ : Type) where
  CreateInstance : String → Int → Int → List NetworkSpec → List DiskSpec → VideoSpec →
    String → String → σ → Except String Instance × σ
  GetInstance : String → σ → Except String Instance × σ
  DeleteInstance : String → σ → Option String × σ
  GetInstanceInterfaces : String → σ → Except String (List NetworkInterface) × σ
  GetInterface : String → σ → Except String NetworkInterface × σ
  GetMetadata : ResourceType → String → σ → Except String (List (String × String)) × σ
  SetMetadata : ResourceType → String → String → String → σ → Option String × σ

/-! ## Resource data -/

/-- One element of the `disk` list attribute. -/
structure DiskAttr where
  size : Int
  base : String
  bus : String
  type_ : String
  deriving DecidableEq, Repr

/-- One element of the `video` list attribute. -/
structure VideoAttr where
  model : String
  memory : Int
  deriving DecidableEq, Repr

/-- One element of the `network` list attribute; `ipv4`, `mac` and `model`
may be absent from the map. -/
structure NetworkAttr where
  network_uuid : String
  ipv4 : Option String
  mac : Option String
  model : Option String
  interface_uuid : String
  state : String
  deriving DecidableEq, Repr

/-- The `*schema.ResourceData` of the instance resource: the identifier, the
schema attributes and the attempts admitted by the two timeouts. The schema
types `metadata` as a map of strings (`TypeMap`, `Elem: TypeString`), so its
values are strings; the map is listed in the order in which `range` visits
it. -/
structure ResourceData where
  id : String
  name : String
  uuid : String
  cpus : Int
  memory : Int
  disk : List DiskAttr
  video : List VideoAttr
  network : List NetworkAttr
  ssh_key : String
  node : String
  user_data : String
  metadata : List (String × String)
  console_port : Int
  vdi_port : Int
  state : String
  power_state : String
  timeoutCreate : Nat
  timeoutDelete : Nat
  deriving DecidableEq, Repr

/-- The state threaded through a handler: the remote state, the log of the
remote calls issued so far, the log of those among them that returned an
error, the number of retryable poll iterations so far, and the resource
data. -/
structure World (σ : Type) where
  remote : σ
  calls : List Call
  failures : List Call
  retries : Nat
  d : ResourceData

variable {σ : Type}

/-- Record a remote call: the remote moves to `s`, the call is logged, and
logged as a failure when it returned an error. -/
def World.log (w : World σ) (s : σ) (call : Call) (failed : Bool) : World σ :=
  { w with remote := s, calls := w.calls ++ [call],
           failures := if failed then w.failures ++ [call] else w.failures }

/-- Does a `(T, error)` result carry an error? -/
def isError {α : Type} : Except String α → Bool
  | .error _ => true
  | .ok _ => false

/-! ## Logged client calls -/

/-- Call `apiClient.CreateInstance` and log it. -/
def apiCreateInstance (c : Client σ) (name : String) (cpus memory : Int)
    (networks : List NetworkSpec) (disks : List DiskSpec) (video : VideoSpec)
    (sshKey userData : String) (w : World σ) : Except String Instance × World σ :=
  let r := c.CreateInstance name cpus memory networks disks video sshKey userData w.remote
  (r.1, w.log r.2 (Call.CreateInstance name cpus memory networks disks video sshKey userData)
    (isError r.1))

/-- Call `apiClient.GetInstance` and log it. -/
def apiGetInstance (c : Client σ) (uuid : String) (w : World σ) :
    Except String Instance × World σ :=
  let r := c.GetInstance uuid w.remote
  (r.1, w.log r.2 (Call.GetInstance uuid) (isError r.1))

/-- Call `apiClient.DeleteInstance` and log it. -/
def apiDeleteInstance (c : Client σ) (uuid : String) (w : World σ) :
    Option String × World σ :=
  let r := c.DeleteInstance uuid w.remote
  (r.1, w.log r.2 (Call.DeleteInstance uuid) r.1.isSome)

/-- Call `apiClient.GetInstanceInterfaces` and log it. -/
def apiGetInstanceInterfaces (c : Client σ) (uuid : String) (w : World σ) :
    Except String (List NetworkInterface) × World σ :=
  let r := c.GetInstanceInterfaces uuid w.remote
  (r.1, w.log r.2 (Call.GetInstanceInterfaces uuid) (isError r.1))

/-- Call `apiClient.GetInterface` and log it. -/
def apiGetInterface (c : Client σ) (uuid : String) (w : World σ) :
    Except String NetworkInterface × World σ :=
  let r := c.GetInterface uuid w.remote
  (r.1, w.log r.2 (Call.GetInterface uuid) (isError r.1))

/-- Call `apiClient.GetMetadata` and log it. -/
def apiGetMetadata (c : Client σ) (kind : ResourceType) (uuid : String) (w : World σ) :
    Except String (List (String × String)) × World σ :=
  let r := c.GetMetadata kind uuid w.remote
  (r.1, w.log r.2 (Call.GetMetadata kind uuid) (isError r.1))

/-- Call `apiClient.SetMetadata` and log it. -/
def apiSetMetadata (c : Client σ) (kind : ResourceType) (uuid key value : String)
    (w : World σ) : Option String × World σ :=
  let r := c.SetMetadata kind uuid key value w.remote
  (r.1, w.log r.2 (Call.SetMetadata kind uuid key value) r.1.isSome)

/-! ## Library helpers -/

/-- Go `strings.Contains` on character lists: some suffix of `s` starts
with `substr`. -/
def containsChars (substr : List Char) : List Char → Bool
  | [] => substr.isEmpty
  | ch :: s => substr.isPrefixOf (ch :: s) || containsChars substr s

/-- Go `strings.Contains(s, substr)`. -/
def stringsContains (s substr : String) : Bool :=
  containsChars substr.toList s.toList

/-- Record `resource.RetryError`. -/
structure RetryError where
  Err : String
  Retryable : Bool
  deriving DecidableEq, Repr

/-- Helper `resource.RetryableError`: nil for a nil error. -/
def RetryableError (err : Option String) : Option RetryError :=
  match err with
  | none => none
  | some e => some { Err := e, Retryable := true }

/-- Helper `resource.NonRetryableError`: nil for a nil error; the polls end
in success through `NonRetryableError(nil)`. -/
def NonRetryableError (err : Option String) : Option RetryError :=
  match err with
  | none => none
  | some e => some { Err := e, Retryable := false }

/-- The loop of `resource.Retry`: run `f` until it returns nil (success) or a
non-retryable error; after a retryable error wait and run it again. The first
argument is the number of attempts left before the timeout, the second the
error reported when the timeout strikes (the last retryable error). -/
def retryLoop (f : World σ → Option RetryError × World σ) :
    Nat → String → World σ → Option String × World σ
  | 0, last, w => (some last, w)
  | n + 1, _, w =>
    match f w with
    | (none, w1) => (none, w1)
    | (some rerr, w1) =>
      if rerr.Retryable then
        retryLoop f n rerr.Err { w1 with retries := w1.retries + 1 }
      else
        (some rerr.Err, w1)

/-- Function `resource.Retry(timeout, f)`. -/
def Retry (timeout : Nat) (f : World σ → Option RetryError × World σ) (w : World σ) :
    Option String × World σ :=
  retryLoop f timeout "timeout while waiting for state" w

/-! ## The handlers of `resource_instance.go` -/

/-- The comparison handed to `sort.Slice` in `getInterfaceUUIDs`:
`interfaces[i].Order < interfaces[j].Order`. -/
def orderLess (a b : NetworkInterface) : Bool :=
  decide (a.Order < b.Order)

/-- Function `getInterfaceUUIDs`. The argument `sortSlice` stands for the
statement `sort.Slice(interfaces, less)` of the Go standard library, with
`less` the comparison `orderLess`. -/
def getInterfaceUUIDs (sortSlice : List NetworkInterface → List NetworkInterface)
    (c : Client σ) (instanceUUID : String) (w : World σ) :
    Except String (List String) × World σ :=
  match apiGetInstanceInterfaces c instanceUUID w with
  | (.error err, w1) => (.error ("unable to retrieve instance interfaces: " ++ err), w1)
  | (.ok interfaces, w1) => (.ok ((sortSlice interfaces).map (fun i => i.UUID)), w1)

/-- The map stored in the `network` attribute for one interface
(lines 441-448). -/
def networkAttrOf (n : NetworkInterface) : NetworkAttr :=
  { network_uuid := n.NetworkUUID, ipv4 := some n.IPv4, mac := some n.MACAddress,
    model := some n.Model, interface_uuid := n.UUID, state := n.State }

/-- The loop of `resourceReadInstance` over the interface UUIDs
(lines 434-449): fetch every interface in turn, stop at the first failure. -/
def readInterfaces (c : Client σ) :
    List String → World σ → Except String (List NetworkAttr) × World σ
  | [], w => (.ok [], w)
  | u :: us, w =>
    match apiGetInterface c u w with
    | (.error err, w1) => (.error err, w1)
    | (.ok n, w1) =>
      match readInterfaces c us w1 with
      | (.error err, w2) => (.error err, w2)
      | (.ok networks, w2) => (.ok (networkAttrOf n :: networks), w2)

/-- The attribute writes of `resourceReadInstance` between the instance fetch
and the interface fetch (lines 370-426). -/
def setInstanceAttrs (inst : Instance) (d : ResourceData) : ResourceData :=
  { d with
    uuid := inst.UUID
    name := inst.Name
    cpus := inst.CPUs
    memory := inst.Memory
    disk := inst.DiskSpecs.map
      (fun ds => { size := ds.Size, base := ds.Base, bus := ds.Bus, type_ := ds.Type_ })
    video := [{ model := inst.Video.Model, memory := inst.Video.Memory }]
    ssh_key := inst.SSHKey
    node := inst.Node
    console_port := inst.ConsolePort
    vdi_port := inst.VDIPort
    user_data := inst.UserData
    state := inst.State
    power_state := inst.PowerState }

/-- Function `resourceReadInstance`. -/
def resourceReadInstance (sortSlice : List NetworkInterface → List NetworkInterface)
    (c : Client σ) (w : World σ) : Option String × World σ :=
  match apiGetInstance c w.d.id w with
  | (.error err, w1) => (some ("Unable to retrieve instance: " ++ err), w1)
  | (.ok inst, w1) =>
    let w2 : World σ := { w1 with d := setInstanceAttrs inst w1.d }
    match getInterfaceUUIDs sortSlice c w2.d.id w2 with
    | (.error err, w3) => (some ("ReadInstance error: " ++ err), w3)
    | (.ok uuid, w3) =>
      match readInterfaces c uuid w3 with
      | (.error err, w4) => (some ("Cannot retrieve interface: " ++ err), w4)
      | (.ok networks, w4) =>
        let w5 : World σ := { w4 with d := { w4.d with network := networks } }
        match apiGetMetadata c ResourceType.TypeInstance inst.UUID w5 with
        | (.error err, w6) =>
          (some ("ReadInstance unable to retrieve metadata: " ++ err), w6)
        | (.ok metadata, w6) =>
          (none, { w6 with
            d := { w6.d with metadata := metadata } })

/-- The disk translation of `resourceCreateInstance` (lines 256-267). -/
def diskSpecsOf (disks : List DiskAttr) : List DiskSpec :=
  disks.map (fun disk =>
    { Base := disk.base, Size := disk.size, Bus := disk.bus, Type_ := disk.type_ })

/-- The network translation of `resourceCreateInstance` (lines 269-288). -/
def networkSpecsOf (networks : List NetworkAttr) : List NetworkSpec :=
  networks.map (fun net =>
    { NetworkUUID := net.network_uuid
      Address := match net.ipv4 with
        | some v => v
        | none => ""
      MACAddress := match net.mac with
        | some v => v
        | none => ""
      Model := match net.model with
        | some v => v
        | none => "" })

/-- The video translation of `resourceCreateInstance` once the length check
has passed (lines 294-302): the default card for an empty list, otherwise the
first entry. -/
def videoSpecOf (videoConf : List VideoAttr) : VideoSpec :=
  match videoConf with
  | [] => { Model := "cirrus", Memory := 16384 }
  | v :: _ => { Model := v.model, Memory := v.memory }

/-- The value of `d.Get("metadata").(map[string]interface{})`: the entries of
the string-typed attribute, each value boxed as an `interface{}`. -/
def dGetMetadata (d : ResourceData) : List (String × Value) :=
  d.metadata.map (fun kv => (kv.1, Value.str kv.2))

/-- The metadata loop of `resourceCreateInstance` (lines 323-333). -/
def setMetadataLoop (c : Client σ) (uuid : String) :
    List (String × Value) → World σ → Option String × World σ
  | [], w => (none, w)
  | (k, v) :: rest, w =>
    match v with
    | Value.str val =>
      match apiSetMetadata c ResourceType.TypeInstance uuid k val w with
      | (some err, w1) => (some ("CreateInstance cannot store metadata: " ++ err), w1)
      | (none, w1) => setMetadataLoop c uuid rest w1
    | _ => (some "Tag value is not a string", w)

/-- The part of `resourceCreateInstance` before the poll (lines 253-333):
translate the desired state, issue `CreateInstance`, record the identifier
and push the metadata. -/
def createIssue (c : Client σ) (w : World σ) : Option String × World σ :=
  let disks := diskSpecsOf w.d.disk
  let networks := networkSpecsOf w.d.network
  let videoConf := w.d.video
  if videoConf.length > 1 then
    (some "Instances only accept one video card ", w)
  else
    let video := videoSpecOf videoConf
    match apiCreateInstance c w.d.name w.d.cpus w.d.memory networks disks video
        w.d.ssh_key w.d.user_data w with
    | (.error err, w1) => (some ("Unable to create instance: " ++ err), w1)
    | (.ok inst, w1) =>
      if inst.UUID = "" then
        (some "Shaken Fist has returned a null instance UUID", w1)
      else
        let w2 : World σ := { w1 with d := { w1.d with uuid := inst.UUID, id := inst.UUID } }
        setMetadataLoop c inst.UUID (dGetMetadata w2.d) w2

/-- The function polled by `resource.Retry` in `resourceCreateInstance`
(lines 336-358). -/
def createPoll (sortSlice : List NetworkInterface → List NetworkInterface)
    (c : Client σ) (w : World σ) : Option RetryError × World σ :=
  match apiGetInstance c w.d.id w with
  | (.error err, w1) =>
    if stringsContains err "not found" then
      (NonRetryableError none, w1)
    else
      (NonRetryableError (some ("Unable to check instance existence: " ++ err)), w1)
  | (.ok i, w1) =>
    if i.State = "error" then
      (NonRetryableError (some "instance in error state"), w1)
    else if i.State ≠ "created" then
      (RetryableError (some "instance not created"), w1)
    else
      let r := resourceReadInstance sortSlice c w1
      (NonRetryableError r.1, r.2)

/-- Function `resourceCreateInstance`. -/
def resourceCreateInstance (sortSlice : List NetworkInterface → List NetworkInterface)
    (c : Client σ) (w : World σ) : Option String × World σ :=
  match createIssue c w with
  | (some err, w1) => (some err, w1)
  | (none, w1) => Retry w1.d.timeoutCreate (createPoll sortSlice c) w1

/-- The function polled by `resource.Retry` in `resourceDeleteInstance`
(lines 476-500). -/
def deletePoll (c : Client σ) (w : World σ) : Option RetryError × World σ :=
  match apiGetInstance c w.d.id w with
  | (.error err, w1) =>
    if stringsContains err "not found" then
      (NonRetryableError none, w1)
    else
      (NonRetryableError (some ("Unable to check instance existence: " ++ err)), w1)
  | (.ok i, w1) =>
    if i.State = "error" then
      (NonRetryableError (some "instance in error state"), w1)
    else if i.State ≠ "deleted" then
      (RetryableError (some "instance not deleted"), w1)
    else
      (NonRetryableError none, { w1 with d := { w1.d with id := "" } })

/-- Function `resourceDeleteInstance`. -/
def resourceDeleteInstance (c : Client σ) (w : World σ) : Option String × World σ :=
  match apiDeleteInstance c w.d.id w with
  | (some err, w1) => (some ("Unable to retrieve network: " ++ err), w1)
  | (none, w1) => Retry w1.d.timeoutDelete (deletePoll c) w1

/-- Function `resourceExistsInstance`. -/
def resourceExistsInstance (c : Client σ) (w : World σ) : (Bool × Option String) × World σ :=
  match apiGetInstance c w.d.id w with
  | (.error err, w1) =>
    if stringsContains err "not found" then
      ((false, none), w1)
    else
      ((false, some ("Unable to check instance existence: " ++ err)), w1)
  | (.ok i, w1) =>
    if i.State = "deleted" then
      ((false, none), w1)
    else
      ((true, none), w1)

/-! ## Worlds, answers and logs named in the statements -/

/-- The world right after the `GetInstance` call of a poll iteration. -/
def afterGet (c : Client σ) (w : World σ) : World σ :=
  (apiGetInstance c w.d.id w).2

/-- The world right after the `CreateInstance` call of create. -/
def afterCreate (c : Client σ) (w : World σ) : World σ :=
  (apiCreateInstance c w.d.name w.d.cpus w.d.memory (networkSpecsOf w.d.network)
    (diskSpecsOf w.d.disk) (videoSpecOf w.d.video) w.d.ssh_key w.d.user_data w).2

/-- The `CreateInstance` call that `resourceCreateInstance` issues for the
resource data `d`, with the video card `video`. -/
def createCallOf (d : ResourceData) (video : VideoSpec) : Call :=
  Call.CreateInstance d.name d.cpus d.memory (networkSpecsOf d.network) (diskSpecsOf d.disk)
    video d.ssh_key d.user_data

/-- The answer of the remote to the `CreateInstance` call of
`resourceCreateInstance` in the world `w`. -/
def createAnswer (c : Client σ) (w : World σ) : Except String Instance × σ :=
  c.CreateInstance w.d.name w.d.cpus w.d.memory (networkSpecsOf w.d.network)
    (diskSpecsOf w.d.disk) (videoSpecOf w.d.video) w.d.ssh_key w.d.user_data w.remote

/-- A call of the metadata loop. -/
def isSetMetadata : Call → Bool
  | Call.SetMetadata _ _ _ _ => true
  | _ => false

/-- A value of the desired state that is not a string. -/
def notString : Value → Bool
  | Value.str _ => false
  | _ => true

/-- What the schema makes of a value configured in the `metadata` map: the
attribute is declared `TypeMap` with `Elem: TypeString` (lines 166-171), so
the handlers receive a string whatever the desired state wrote, a number or
a boolean in its string form. -/
def schemaString : Value → String
  | Value.str s => s
  | Value.int n => toString n
  | Value.bool b => toString b

/-- The `metadata` attribute that the handlers receive for a map written in
the desired state. -/
def schemaMetadata (config : List (String × Value)) : List (String × String) :=
  config.map (fun kv => (kv.1, schemaString kv.2))

/-- The `SetMetadata` call that the metadata loop of create issues for one
entry. -/
def setCall (uuid : String) (kv : String × String) : Call :=
  Call.SetMetadata ResourceType.TypeInstance uuid kv.1 kv.2

/-- The world of the read after the instance attributes are written. -/
def readW2 (c : Client σ) (w : World σ) (inst : Instance) : World σ :=
  { afterGet c w with d := setInstanceAttrs inst w.d }

/-- The world of the read right after the `GetInstanceInterfaces` call. -/
def readW3 (c : Client σ) (w : World σ) (inst : Instance) : World σ :=
  (apiGetInstanceInterfaces c w.d.id (readW2 c w inst)).2

/-- The world of the read after the `network` attribute is written. -/
def readW5 (w4 : World σ) (networks : List NetworkAttr) : World σ :=
  { w4 with d := { w4.d with network := networks } }

/-- The answer of the remote to the `GetInstanceInterfaces` call of a read
that received `inst`. -/
def interfacesAnswer (c : Client σ) (w : World σ) (inst : Instance) :
    Except String (List NetworkInterface) :=
  (c.GetInstanceInterfaces w.d.id (readW2 c w inst).remote).1

/-- An attribute map that is built from a successful answer of the remote
to `GetInterface u`. -/
def answersInterface (c : Client σ) (u : String) (a : NetworkAttr) : Prop :=
  ∃ s n, (c.GetInterface u s).1 = .ok n ∧ a = networkAttrOf n

/-- The contexts with which a read wraps the error of a failed fetch. -/
def readContexts : List String :=
  ["Unable to retrieve instance: ", "ReadInstance error: ", "Cannot retrieve interface: ",
    "ReadInstance unable to retrieve metadata: "]

/-- The log of `w2` is the log of `w` followed by further calls. -/
def Extends (w w2 : World σ) : Prop :=
  ∃ ext, w2.calls = w.calls ++ ext

/-- The world in which the next poll iteration starts after a retryable
iteration: the `GetInstance` call is logged and one retry is counted. -/
def pollAgain (c : Client σ) (w : World σ) : World σ :=
  { afterGet c w with retries := (afterGet c w).retries + 1 }

/-- In the world `w` the remote answers `GetInstance` with a record whose
state is neither "error" nor the target state. -/
def transientAt (c : Client σ) (target : String) (w : World σ) : Prop :=
  ∃ i, (c.GetInstance w.d.id w.remote).1 = .ok i ∧ i.State ≠ "error" ∧ i.State ≠ target

/-- In the world `w` the remote answers `GetInstance` with a record in the
target state. -/
def reachedAt (c : Client σ) (target : String) (w : World σ) : Prop :=
  ∃ i, (c.GetInstance w.d.id w.remote).1 = .ok i ∧ i.State = target

/-! ## The contract of the sort and the reference translation -/

/-- What `sort.Slice(interfaces, less)` guarantees for the comparison
`orderLess`: the slice afterwards holds the same elements, and no later
element is less than an earlier one. -/
def SortsByOrder (sortSlice : List NetworkInterface → List NetworkInterface) : Prop :=
  ∀ xs, (sortSlice xs).Perm xs ∧
    (sortSlice xs).Pairwise (fun a b => orderLess b a = false)

/-- The video translation as the specification words it: no entry gives the
default card, one entry is passed through, more than one is a validation
error. -/
def specTranslateVideo (videoConf : List VideoAttr) : Except String VideoSpec :=
  match videoConf with
  | [] => .ok { Model := "cirrus", Memory := 16384 }
  | [v] => .ok { Model := v.model, Memory := v.memory }
  | _ => .error "instances accept at most one video card"

/-! ## Scripted remotes for concrete runs -/

/-- The fixed answers of a scripted remote. -/
structure Scenario where
  create : Except String Instance
  delete : Option String
  interfaces : Except String (List NetworkInterface)
  interface : String → Except String NetworkInterface
  metadata : Except String (List (String × String))
  setMetadata : String → Option String

/-- A scripted remote: its state is the queue of the answers that
`GetInstance` is still to give (an exhausted queue answers "not found"); the
other calls answer as the scenario says. -/
def scripted (sc : Scenario) : Client (List (Except String Instance)) :=
  { CreateInstance := fun _ _ _ _ _ _ _ _ q => (sc.create, q)
    GetInstance := fun _ q =>
      match q with
      | [] => (.error "instance not found", [])
      | r :: rest => (r, rest)
    DeleteInstance := fun _ q => (sc.delete, q)
    GetInstanceInterfaces := fun _ q => (sc.interfaces, q)
    GetInterface := fun u q => (sc.interface u, q)
    GetMetadata := fun _ _ q => (sc.metadata, q)
    SetMetadata := fun _ _ k _ q => (sc.setMetadata k, q) }

/-- An instance record in the given lifecycle state. -/
def instanceIn (uuid state : String) : Instance :=
  { UUID := uuid, Name := "vm", CPUs := 1, Memory := 1024, DiskSpecs := [],
    Video := { Model := "cirrus", Memory := 16384 }, SSHKey := "", Node := "node1",
    ConsolePort := 5900, VDIPort := 5901, UserData := "", State := state,
    PowerState := "on" }

/-- An interface summary with the given identifier and order. -/
def interfaceAt (uuid : String) (order : Int) : NetworkInterface :=
  { UUID := uuid, NetworkUUID := "net", IPv4 := "10.0.0.1", MACAddress := "02:00:00:00:00:01",
    Model := "virtio", State := "created", Order := order }

/-- Resource data of an instance that is not created yet. -/
def freshData : ResourceData :=
  { id := "", name := "vm", uuid := "", cpus := 1, memory := 1024, disk := [], video := [],
    network := [], ssh_key := "", node := "", user_data := "", metadata := [],
    console_port := 0, vdi_port := 0, state := "", power_state := "",
    timeoutCreate := 10, timeoutDelete := 10 }

/-- A scenario in which every call succeeds, on an instance without
interfaces or metadata. -/
def plainScenario : Scenario :=
  { create := .ok (instanceIn "i-1" "initializing"), delete := none, interfaces := .ok [],
    interface := fun u => .ok (interfaceAt u 0), metadata := .ok [],
    setMetadata := fun _ => none }

/-- The world of a scripted run: the queue of `GetInstance` answers, an empty
log and the given resource data. -/
def startWorld (q : List (Except String Instance)) (d : ResourceData) :
    World (List (Except String Instance)) :=
  { remote := q, calls := [], failures := [], retries := 0, d := d }

/-- The sort used in concrete runs: insertion sort by ascending order. -/
def sortByOrder (xs : List NetworkInterface) : List NetworkInterface :=
  xs.insertionSort (fun a b => a.Order ≤ b.Order)

/-- A scenario whose interface listing arrives with orders 3, 1, 2. -/
def shuffledScenario : Scenario :=
  { plainScenario with
    interfaces := .ok [interfaceAt "if-c" 3, interfaceAt "if-a" 1, interfaceAt "if-b" 2] }

/-! # Theorems -/

/-! ## The call log -/

@[simp]
theorem World.log_remote (w : World σ) (s : σ) (call : Call) (failed : Bool) :
    (w.log s call failed).remote = s := rfl

@[simp]
theorem World.log_calls (w : World σ) (s : σ) (call : Call) (failed : Bool) :
    (w.log s call failed).calls = w.calls ++ [call] := rfl

@[simp]
theorem World.log_failures (w : World σ) (s : σ) (call : Call) (failed : Bool) :
    (w.log s call failed).failures =
      if failed then w.failures ++ [call] else w.failures := rfl

@[simp]
theorem World.log_retries (w : World σ) (s : σ) (call : Call) (failed : Bool) :
    (w.log s call failed).retries = w.retries := rfl

@[simp]
theorem World.log_d (w : World σ) (s : σ) (call : Call) (failed : Bool) :
    (w.log s call failed).d = w.d := rfl

/-! ## The retry loop -/

theorem retryLoop_done (f : World σ → Option RetryError × World σ) (n : Nat) (last : String)
    (w w1 : World σ) (h : f w = (none, w1)) :
    retryLoop f (n + 1) last w = (none, w1) := by
  simp [retryLoop, h]

theorem retryLoop_abort (f : World σ → Option RetryError × World σ) (n : Nat) (last : String)
    (w w1 : World σ) (e : String) (h : f w = (some { Err := e, Retryable := false }, w1)) :
    retryLoop f (n + 1) last w = (some e, w1) := by
  simp [retryLoop, h]

theorem retryLoop_retry (f : World σ → Option RetryError × World σ) (n : Nat) (last : String)
    (w w1 : World σ) (e : String) (h : f w = (some { Err := e, Retryable := true }, w1)) :
    retryLoop f (n + 1) last w = retryLoop f n e { w1 with retries := w1.retries + 1 } := by
  simp [retryLoop, h]

/-- A non-retryable outcome ends the loop with that outcome. -/
theorem retryLoop_nonRetryable (f : World σ → Option RetryError × World σ) (n : Nat)
    (last : String) (w w1 : World σ) (r : Option String) (h : f w = (NonRetryableError r, w1)) :
    retryLoop f (n + 1) last w = (r, w1) := by
  cases r with
  | none => exact retryLoop_done f n last w w1 h
  | some e => exact retryLoop_abort f n last w w1 e h

/-! ## The existence predicate -/

/-- C2: `resourceExistsInstance` answers (false, nil) on a not-found error and
on state "deleted", (false, wrapped error) on any other error, and
(true, nil) otherwise; its only remote call is one `GetInstance`, the resource
data is untouched, and a second call that meets the same remote answer
returns the same result. -/
theorem resourceExistsInstance_spec (c : Client σ) (w : World σ) :
    (∀ err, (c.GetInstance w.d.id w.remote).1 = .error err →
      stringsContains err "not found" = true →
      (resourceExistsInstance c w).1 = (false, none)) ∧
    (∀ i, (c.GetInstance w.d.id w.remote).1 = .ok i → i.State = "deleted" →
      (resourceExistsInstance c w).1 = (false, none)) ∧
    (∀ err, (c.GetInstance w.d.id w.remote).1 = .error err →
      stringsContains err "not found" = false →
      (resourceExistsInstance c w).1 =
        (false, some ("Unable to check instance existence: " ++ err))) ∧
    (∀ i, (c.GetInstance w.d.id w.remote).1 = .ok i → i.State ≠ "deleted" →
      (resourceExistsInstance c w).1 = (true, none)) ∧
    (resourceExistsInstance c w).2.calls = w.calls ++ [Call.GetInstance w.d.id] ∧
    (resourceExistsInstance c w).2.d = w.d ∧
    ((c.GetInstance w.d.id (resourceExistsInstance c w).2.remote).1 =
        (c.GetInstance w.d.id w.remote).1 →
      (resourceExistsInstance c (resourceExistsInstance c w).2).1 =
        (resourceExistsInstance c w).1) := by
  have hd : (resourceExistsInstance c w).2.d = w.d := by
    unfold resourceExistsInstance apiGetInstance
    cases h : (c.GetInstance w.d.id w.remote).1 <;> simp only [h] <;> split <;> rfl
  refine ⟨?_, ?_, ?_, ?_, ?_, hd, ?_⟩
  · intro err h hc
    unfold resourceExistsInstance apiGetInstance
    simp [h, hc]
  · intro i h hs
    unfold resourceExistsInstance apiGetInstance
    simp [h, hs]
  · intro err h hc
    unfold resourceExistsInstance apiGetInstance
    simp [h, hc]
  · intro i h hs
    unfold resourceExistsInstance apiGetInstance
    simp [h, hs]
  · unfold resourceExistsInstance apiGetInstance
    cases h : (c.GetInstance w.d.id w.remote).1 <;> simp only [h] <;> split <;> rfl
  · intro h
    have h1 : ∀ v : World σ, (resourceExistsInstance c v).1 =
        (match (c.GetInstance v.d.id v.remote).1 with
          | .error err =>
            if stringsContains err "not found" then (false, none)
            else (false, some ("Unable to check instance existence: " ++ err))
          | .ok i => if i.State = "deleted" then (false, none) else (true, none)) := by
      intro v
      unfold resourceExistsInstance apiGetInstance
      cases hv : (c.GetInstance v.d.id v.remote).1 <;> simp only [hv] <;> split <;> rfl
    rw [h1, h1 w, hd, h]

/-- C2, a concrete run: a remote that holds the deleted record of the
instance. -/
theorem resourceExistsInstance_spec_witness :
    (resourceExistsInstance (scripted plainScenario)
      (startWorld [.ok (instanceIn "i-1" "deleted")]
        { freshData with id := "i-1" })).1 = (false, none) :=
  (resourceExistsInstance_spec (scripted plainScenario)
    (startWorld [.ok (instanceIn "i-1" "deleted")] { freshData with id := "i-1" })).2.1
    (instanceIn "i-1" "deleted") rfl rfl

/-! ## The polls on an instance in state "error" or gone -/

theorem afterGet_calls (c : Client σ) (w : World σ) :
    (afterGet c w).calls = w.calls ++ [Call.GetInstance w.d.id] := rfl

theorem afterGet_d (c : Client σ) (w : World σ) : (afterGet c w).d = w.d := rfl

theorem afterGet_retries (c : Client σ) (w : World σ) :
    (afterGet c w).retries = w.retries := rfl

theorem createPoll_error_state (sortSlice : List NetworkInterface → List NetworkInterface)
    (c : Client σ) (w : World σ) (i : Instance)
    (hget : (c.GetInstance w.d.id w.remote).1 = .ok i) (hst : i.State = "error") :
    createPoll sortSlice c w =
      (some { Err := "instance in error state", Retryable := false }, afterGet c w) := by
  simp [createPoll, afterGet, apiGetInstance, hget, hst, NonRetryableError]

theorem deletePoll_error_state (c : Client σ) (w : World σ) (i : Instance)
    (hget : (c.GetInstance w.d.id w.remote).1 = .ok i) (hst : i.State = "error") :
    deletePoll c w =
      (some { Err := "instance in error state", Retryable := false }, afterGet c w) := by
  simp [deletePoll, afterGet, apiGetInstance, hget, hst, NonRetryableError]

/-- C7: at any iteration of the create poll or of the delete poll, a
`GetInstance` answer in state "error" ends the operation with the
non-retryable error "instance in error state"; the world it ends in is the
one right after that `GetInstance` call: no further call is logged, no
read-back has run, the resource data (the identifier included) is as it was
and no retry is counted. -/
theorem poll_error_state_aborts (sortSlice : List NetworkInterface → List NetworkInterface)
    (c : Client σ) (w : World σ) (n : Nat) (last : String) (i : Instance)
    (hget : (c.GetInstance w.d.id w.remote).1 = .ok i) (hst : i.State = "error") :
    (createPoll sortSlice c w).1 =
        some { Err := "instance in error state", Retryable := false } ∧
    (deletePoll c w).1 = some { Err := "instance in error state", Retryable := false } ∧
    retryLoop (createPoll sortSlice c) (n + 1) last w =
        (some "instance in error state", afterGet c w) ∧
    retryLoop (deletePoll c) (n + 1) last w =
        (some "instance in error state", afterGet c w) ∧
    (afterGet c w).calls = w.calls ++ [Call.GetInstance w.d.id] ∧
    (afterGet c w).d = w.d ∧
    (afterGet c w).retries = w.retries := by
  have h1 := createPoll_error_state sortSlice c w i hget hst
  have h2 := deletePoll_error_state c w i hget hst
  exact ⟨by rw [h1], by rw [h2], retryLoop_abort _ n last w _ _ h1,
    retryLoop_abort _ n last w _ _ h2, rfl, rfl, rfl⟩

/-- C7, a concrete run: the second poll answer is in state "error". -/
theorem poll_error_state_aborts_witness :
    (createPoll id (scripted plainScenario)
        (startWorld [.ok (instanceIn "i-1" "error"), .ok (instanceIn "i-1" "created")]
          { freshData with id := "i-1" })).1 =
        some { Err := "instance in error state", Retryable := false } ∧
    retryLoop (deletePoll (scripted plainScenario)) (2 + 1) "timeout"
        (startWorld [.ok (instanceIn "i-1" "error"), .ok (instanceIn "i-1" "created")]
          { freshData with id := "i-1" }) =
      (some "instance in error state",
        afterGet (scripted plainScenario)
          (startWorld [.ok (instanceIn "i-1" "error"), .ok (instanceIn "i-1" "created")]
            { freshData with id := "i-1" })) :=
  have h := poll_error_state_aborts id (scripted plainScenario)
    (startWorld [.ok (instanceIn "i-1" "error"), .ok (instanceIn "i-1" "created")]
      { freshData with id := "i-1" }) 2 "timeout" (instanceIn "i-1" "error") rfl rfl
  ⟨h.1, h.2.2.2.1⟩

/-! ## The issue phase of create -/

theorem setMetadataLoop_log (c : Client σ) (uuid : String) (md : List (String × Value))
    (w : World σ) :
    (∃ ext, (setMetadataLoop c uuid md w).2.calls = w.calls ++ ext ∧
      ∀ x ∈ ext, isSetMetadata x = true) ∧
    (setMetadataLoop c uuid md w).2.d = w.d ∧
    (setMetadataLoop c uuid md w).2.retries = w.retries := by
  induction md generalizing w with
  | nil => exact ⟨⟨[], by simp [setMetadataLoop], by simp⟩, rfl, rfl⟩
  | cons kv rest ih =>
    obtain ⟨k, v⟩ := kv
    cases v with
    | str val =>
      unfold setMetadataLoop
      cases hr : (c.SetMetadata ResourceType.TypeInstance uuid k val w.remote).1 with
      | some err =>
        simp only [apiSetMetadata, hr]
        refine ⟨⟨[Call.SetMetadata ResourceType.TypeInstance uuid k val], ?_, ?_⟩, ?_, ?_⟩ <;>
          simp [isSetMetadata]
      | none =>
        simp only [apiSetMetadata, hr]
        obtain ⟨⟨ext, he, hall⟩, hd, hrt⟩ := ih
          (w.log (c.SetMetadata ResourceType.TypeInstance uuid k val w.remote).2
            (Call.SetMetadata ResourceType.TypeInstance uuid k val) none.isSome)
        refine ⟨⟨Call.SetMetadata ResourceType.TypeInstance uuid k val :: ext, ?_, ?_⟩, ?_, ?_⟩
        · rw [he]; simp
        · intro x hx
          rcases List.mem_cons.1 hx with h | h
          · subst h; rfl
          · exact hall x h
        · rw [hd]; rfl
        · rw [hrt]; rfl
    | int n => exact ⟨⟨[], by simp [setMetadataLoop], by simp⟩, rfl, rfl⟩
    | bool b => exact ⟨⟨[], by simp [setMetadataLoop], by simp⟩, rfl, rfl⟩

theorem afterCreate_calls (c : Client σ) (w : World σ) :
    (afterCreate c w).calls = w.calls ++ [createCallOf w.d (videoSpecOf w.d.video)] := rfl

theorem afterCreate_d (c : Client σ) (w : World σ) : (afterCreate c w).d = w.d := rfl

theorem afterCreate_retries (c : Client σ) (w : World σ) :
    (afterCreate c w).retries = w.retries := rfl

/-- The issue phase when the video list is too long. -/
theorem createIssue_video_many (c : Client σ) (w : World σ) (h : 1 < w.d.video.length) :
    createIssue c w = (some "Instances only accept one video card ", w) := by
  simp [createIssue, h]

/-- The issue phase when `CreateInstance` fails. -/
theorem createIssue_create_error (c : Client σ) (w : World σ) (h : w.d.video.length ≤ 1)
    (err : String) (hc : (createAnswer c w).1 = .error err) :
    createIssue c w = (some ("Unable to create instance: " ++ err), afterCreate c w) := by
  have h1 : ¬ 1 < w.d.video.length := by omega
  unfold createAnswer at hc
  simp [createIssue, h1, apiCreateInstance, hc, afterCreate]

/-- The issue phase when `CreateInstance` returns an empty UUID. -/
theorem createIssue_empty_uuid (c : Client σ) (w : World σ) (h : w.d.video.length ≤ 1)
    (inst : Instance) (hc : (createAnswer c w).1 = .ok inst) (hu : inst.UUID = "") :
    createIssue c w =
      (some "Shaken Fist has returned a null instance UUID", afterCreate c w) := by
  have h1 : ¬ 1 < w.d.video.length := by omega
  unfold createAnswer at hc
  simp [createIssue, h1, apiCreateInstance, hc, hu, afterCreate]

/-- The issue phase when `CreateInstance` returns a UUID: the identifier is
recorded and the metadata loop runs. -/
theorem createIssue_created (c : Client σ) (w : World σ) (h : w.d.video.length ≤ 1)
    (inst : Instance) (hc : (createAnswer c w).1 = .ok inst) (hu : inst.UUID ≠ "") :
    createIssue c w = setMetadataLoop c inst.UUID (dGetMetadata w.d)
      { afterCreate c w with d := { w.d with uuid := inst.UUID, id := inst.UUID } } := by
  have h1 : ¬ 1 < w.d.video.length := by omega
  unfold createAnswer at hc
  simp [createIssue, h1, apiCreateInstance, hc, hu, afterCreate, dGetMetadata]

/-- When the issue phase fails, create returns its outcome and never polls. -/
theorem resourceCreateInstance_issue_error
    (sortSlice : List NetworkInterface → List NetworkInterface) (c : Client σ) (w : World σ)
    (h : (createIssue c w).1 ≠ none) :
    resourceCreateInstance sortSlice c w = createIssue c w := by
  unfold resourceCreateInstance
  rcases hr : createIssue c w with ⟨r, w1⟩
  rw [hr] at h
  cases r with
  | none => exact absurd rfl h
  | some e => rfl

/-- When the issue phase succeeds, create is the poll from the world it left. -/
theorem resourceCreateInstance_issue_ok
    (sortSlice : List NetworkInterface → List NetworkInterface) (c : Client σ)
    (w w1 : World σ) (h : createIssue c w = (none, w1)) :
    resourceCreateInstance sortSlice c w =
      Retry w1.d.timeoutCreate (createPoll sortSlice c) w1 := by
  unfold resourceCreateInstance
  rw [h]

/-- C8: when `CreateInstance` answers successfully with an empty UUID, create
fails with the null-UUID error; the log holds the `CreateInstance` call and
nothing after it (no `SetMetadata`, no `GetInstance`), and the resource data,
the identifier included, is as it was. -/
theorem create_empty_uuid_fails (sortSlice : List NetworkInterface → List NetworkInterface)
    (c : Client σ) (w : World σ) (inst : Instance) (hv : w.d.video.length ≤ 1)
    (hc : (createAnswer c w).1 = .ok inst) (hu : inst.UUID = "") :
    (resourceCreateInstance sortSlice c w).1 =
        some "Shaken Fist has returned a null instance UUID" ∧
    (resourceCreateInstance sortSlice c w).2.calls =
        w.calls ++ [createCallOf w.d (videoSpecOf w.d.video)] ∧
    (resourceCreateInstance sortSlice c w).2.d = w.d ∧
    (resourceCreateInstance sortSlice c w).2.retries = w.retries := by
  have h := createIssue_empty_uuid c w hv inst hc hu
  have h2 := resourceCreateInstance_issue_error sortSlice c w (by rw [h]; simp)
  rw [h2, h]
  exact ⟨rfl, rfl, rfl, rfl⟩

/-- C3, amended: at any iteration of the create poll, a `GetInstance` that
fails with a not-found error stops the poll at once with a nil error: the
operation returns success in the world right after that call, without a
retry and without the read-back. -/
theorem create_poll_not_found_returns_nil
    (sortSlice : List NetworkInterface → List NetworkInterface) (c : Client σ) (w : World σ)
    (n : Nat) (last : String) (err : String)
    (hget : (c.GetInstance w.d.id w.remote).1 = .error err)
    (hnf : stringsContains err "not found" = true) :
    retryLoop (createPoll sortSlice c) (n + 1) last w = (none, afterGet c w) ∧
    (afterGet c w).calls = w.calls ++ [Call.GetInstance w.d.id] ∧
    (afterGet c w).d = w.d ∧
    (afterGet c w).retries = w.retries := by
  refine ⟨retryLoop_done _ n last w _ ?_, rfl, rfl, rfl⟩
  simp [createPoll, afterGet, apiGetInstance, hget, hnf, NonRetryableError]

/-- C8, a concrete run: the remote answers the create call with a record
whose UUID is empty. -/
theorem create_empty_uuid_fails_witness :
    (resourceCreateInstance sortByOrder
        (scripted { plainScenario with create := .ok (instanceIn "" "initializing") })
        (startWorld [] freshData)).1 =
      some "Shaken Fist has returned a null instance UUID" ∧
    (resourceCreateInstance sortByOrder
        (scripted { plainScenario with create := .ok (instanceIn "" "initializing") })
        (startWorld [] freshData)).2.d.id = "" :=
  have h := create_empty_uuid_fails sortByOrder
    (scripted { plainScenario with create := .ok (instanceIn "" "initializing") })
    (startWorld [] freshData) (instanceIn "" "initializing") (by decide) rfl rfl
  ⟨h.1, by rw [h.2.2.1]; rfl⟩

/-- C3, a concrete run of the amended claim: the first poll answer is the
not-found error. -/
theorem create_poll_not_found_returns_nil_witness :
    retryLoop (createPoll sortByOrder (scripted plainScenario)) (0 + 1) "timeout"
        (startWorld [.error "instance not found"] { freshData with id := "i-1" }) =
      (none, afterGet (scripted plainScenario)
        (startWorld [.error "instance not found"] { freshData with id := "i-1" })) :=
  (create_poll_not_found_returns_nil sortByOrder (scripted plainScenario)
    (startWorld [.error "instance not found"] { freshData with id := "i-1" }) 0 "timeout"
    "instance not found" rfl (by decide)).1

/-- C3, counterexample: the create call succeeds with UUID "i-1" and the
first `GetInstance` of the poll fails with "instance not found"; create
returns a nil error, with the identifier set. -/
theorem create_not_found_reports_success :
    ((scripted plainScenario).GetInstance "i-1" [.error "instance not found"]).1 =
        .error "instance not found" ∧
    stringsContains "instance not found" "not found" = true ∧
    (resourceCreateInstance sortByOrder (scripted plainScenario)
        (startWorld [.error "instance not found"] freshData)).1 = none ∧
    (resourceCreateInstance sortByOrder (scripted plainScenario)
        (startWorld [.error "instance not found"] freshData)).2.d.id = "i-1" ∧
    (resourceCreateInstance sortByOrder (scripted plainScenario)
        (startWorld [.error "instance not found"] freshData)).2.calls =
      [createCallOf freshData { Model := "cirrus", Memory := 16384 },
        Call.GetInstance "i-1"] := by
  refine ⟨rfl, by decide, ?_, ?_, ?_⟩ <;> rfl

/-- C10, the failing run: `DeleteInstance` succeeds and the first
`GetInstance` of the poll fails with "instance not found"; delete returns a
nil error and the identifier is still "i-1". -/
theorem delete_not_found_keeps_id :
    (resourceDeleteInstance (scripted plainScenario)
        (startWorld [.error "instance not found"] { freshData with id := "i-1" })).1 = none ∧
    (resourceDeleteInstance (scripted plainScenario)
        (startWorld [.error "instance not found"] { freshData with id := "i-1" })).2.d.id =
      "i-1" ∧
    (resourceDeleteInstance (scripted plainScenario)
        (startWorld [.ok (instanceIn "i-1" "deleted")] { freshData with id := "i-1" })).1 =
      none ∧
    (resourceDeleteInstance (scripted plainScenario)
        (startWorld [.ok (instanceIn "i-1" "deleted")] { freshData with id := "i-1" })).2.d.id =
      "" := by
  refine ⟨?_, ?_, ?_, ?_⟩ <;> rfl

/-! ## The state reader -/

theorem readInterfaces_spec (c : Client σ) (us : List String) (w : World σ) :
    (readInterfaces c us w).2.d = w.d ∧
    (readInterfaces c us w).2.retries = w.retries ∧
    (∀ networks, (readInterfaces c us w).1 = .ok networks →
      (readInterfaces c us w).2.calls = w.calls ++ us.map Call.GetInterface ∧
      (readInterfaces c us w).2.failures = w.failures ∧
      List.Forall₂ (answersInterface c) us networks) ∧
    (∀ err, (readInterfaces c us w).1 = .error err →
      ∃ u ∈ us, (∃ s, (c.GetInterface u s).1 = .error err) ∧
        (readInterfaces c us w).2.failures = w.failures ++ [Call.GetInterface u]) := by
  induction us generalizing w with
  | nil =>
    refine ⟨rfl, rfl, ?_, ?_⟩
    · intro networks h
      simp only [readInterfaces] at h
      cases h
      exact ⟨by simp [readInterfaces], rfl, List.Forall₂.nil⟩
    · intro err h
      simp [readInterfaces] at h
  | cons u us ih =>
    unfold readInterfaces
    cases hg : (c.GetInterface u w.remote).1 with
    | error e =>
      simp only [apiGetInterface, hg]
      refine ⟨rfl, rfl, ?_, ?_⟩
      · intro networks h; cases h
      · intro err h
        cases h
        exact ⟨u, List.mem_cons_self _ _, ⟨w.remote, hg⟩, by simp [isError]⟩
    | ok n =>
      simp only [apiGetInterface, hg]
      obtain ⟨hd, hr, hok, herr⟩ := ih
        (w.log (c.GetInterface u w.remote).2 (Call.GetInterface u) (isError (Except.ok n)))
      rcases hri : readInterfaces c us
        (w.log (c.GetInterface u w.remote).2 (Call.GetInterface u) (isError (Except.ok n)))
        with ⟨r, w4⟩
      rw [hri] at hd hr hok herr
      cases r with
      | error e =>
        refine ⟨by simpa using hd, by simpa using hr, ?_, ?_⟩
        · intro networks h; cases h
        · intro err h
          cases h
          obtain ⟨v, hv, hs, hf⟩ := herr e rfl
          exact ⟨v, List.mem_cons_of_mem _ hv, hs, by simpa [isError] using hf⟩
      | ok networks =>
        refine ⟨by simpa using hd, by simpa using hr, ?_, ?_⟩
        · intro nets h
          cases h
          obtain ⟨hc, hf, hall⟩ := hok networks rfl
          refine ⟨by simpa using hc, by simpa [isError] using hf, ?_⟩
          exact List.Forall₂.cons ⟨w.remote, n, hg, rfl⟩ hall
        · intro err h; cases h

theorem read_getInstance_error (sortSlice : List NetworkInterface → List NetworkInterface)
    (c : Client σ) (w : World σ) (err : String)
    (hg : (c.GetInstance w.d.id w.remote).1 = .error err) :
    resourceReadInstance sortSlice c w =
      (some ("Unable to retrieve instance: " ++ err), afterGet c w) := by
  simp [resourceReadInstance, apiGetInstance, hg, afterGet]

theorem read_interfaces_error (sortSlice : List NetworkInterface → List NetworkInterface)
    (c : Client σ) (w : World σ) (inst : Instance) (err : String)
    (hg : (c.GetInstance w.d.id w.remote).1 = .ok inst)
    (hi : interfacesAnswer c w inst = .error err) :
    resourceReadInstance sortSlice c w =
      (some ("ReadInstance error: " ++ ("unable to retrieve instance interfaces: " ++ err)),
        readW3 c w inst) := by
  simp only [interfacesAnswer, readW2, afterGet, apiGetInstance, World.log_remote] at hi
  simp [resourceReadInstance, getInterfaceUUIDs, apiGetInstance, apiGetInstanceInterfaces, hg,
    readW3, readW2, afterGet, setInstanceAttrs, hi]

theorem read_interface_error (sortSlice : List NetworkInterface → List NetworkInterface)
    (c : Client σ) (w w4 : World σ) (inst : Instance) (ifs : List NetworkInterface)
    (err : String) (hg : (c.GetInstance w.d.id w.remote).1 = .ok inst)
    (hi : interfacesAnswer c w inst = .ok ifs)
    (hr : readInterfaces c ((sortSlice ifs).map (fun i => i.UUID)) (readW3 c w inst) =
      (.error err, w4)) :
    resourceReadInstance sortSlice c w = (some ("Cannot retrieve interface: " ++ err), w4) := by
  simp only [interfacesAnswer, readW2, afterGet, apiGetInstance, World.log_remote] at hi
  simp [readW3, readW2, afterGet, apiGetInstance, apiGetInstanceInterfaces, hg, hi,
    setInstanceAttrs] at hr
  simp [resourceReadInstance, getInterfaceUUIDs, apiGetInstance, apiGetInstanceInterfaces, hg,
    setInstanceAttrs, hi, hr]

theorem read_metadata_error (sortSlice : List NetworkInterface → List NetworkInterface)
    (c : Client σ) (w w4 : World σ) (inst : Instance) (ifs : List NetworkInterface)
    (networks : List NetworkAttr) (err : String)
    (hg : (c.GetInstance w.d.id w.remote).1 = .ok inst)
    (hi : interfacesAnswer c w inst = .ok ifs)
    (hr : readInterfaces c ((sortSlice ifs).map (fun i => i.UUID)) (readW3 c w inst) =
      (.ok networks, w4))
    (hm : (c.GetMetadata ResourceType.TypeInstance inst.UUID w4.remote).1 = .error err) :
    resourceReadInstance sortSlice c w =
      (some ("ReadInstance unable to retrieve metadata: " ++ err),
        (apiGetMetadata c ResourceType.TypeInstance inst.UUID (readW5 w4 networks)).2) := by
  simp only [interfacesAnswer, readW2, afterGet, apiGetInstance, World.log_remote] at hi
  simp [readW3, readW2, afterGet, apiGetInstance, apiGetInstanceInterfaces, hg, hi,
    setInstanceAttrs] at hr
  simp [resourceReadInstance, getInterfaceUUIDs, apiGetInstance, apiGetInstanceInterfaces, hg,
    setInstanceAttrs, hi, hr, apiGetMetadata, hm, readW5]

theorem read_ok (sortSlice : List NetworkInterface → List NetworkInterface)
    (c : Client σ) (w w4 : World σ) (inst : Instance) (ifs : List NetworkInterface)
    (networks : List NetworkAttr) (md : List (String × String))
    (hg : (c.GetInstance w.d.id w.remote).1 = .ok inst)
    (hi : interfacesAnswer c w inst = .ok ifs)
    (hr : readInterfaces c ((sortSlice ifs).map (fun i => i.UUID)) (readW3 c w inst) =
      (.ok networks, w4))
    (hm : (c.GetMetadata ResourceType.TypeInstance inst.UUID w4.remote).1 = .ok md) :
    resourceReadInstance sortSlice c w =
      (none,
        { (apiGetMetadata c ResourceType.TypeInstance inst.UUID (readW5 w4 networks)).2 with
          d := { (readW5 w4 networks).d with
            metadata := md } }) := by
  simp only [interfacesAnswer, readW2, afterGet, apiGetInstance, World.log_remote] at hi
  simp [readW3, readW2, afterGet, apiGetInstance, apiGetInstanceInterfaces, hg, hi,
    setInstanceAttrs] at hr
  simp [resourceReadInstance, getInterfaceUUIDs, apiGetInstance, apiGetInstanceInterfaces, hg,
    setInstanceAttrs, hi, hr, apiGetMetadata, hm, readW5]

/-- The five ways a read can run: the first, second, third or fourth kind of
fetch fails, or none does. -/
theorem read_cases (sortSlice : List NetworkInterface → List NetworkInterface)
    (c : Client σ) (w : World σ) :
    (∃ err, (c.GetInstance w.d.id w.remote).1 = .error err ∧
      resourceReadInstance sortSlice c w =
        (some ("Unable to retrieve instance: " ++ err), afterGet c w)) ∨
    (∃ inst err, (c.GetInstance w.d.id w.remote).1 = .ok inst ∧
      interfacesAnswer c w inst = .error err ∧
      resourceReadInstance sortSlice c w =
        (some ("ReadInstance error: " ++ ("unable to retrieve instance interfaces: " ++ err)),
          readW3 c w inst)) ∨
    (∃ inst ifs err w4, (c.GetInstance w.d.id w.remote).1 = .ok inst ∧
      interfacesAnswer c w inst = .ok ifs ∧
      readInterfaces c ((sortSlice ifs).map (fun i => i.UUID)) (readW3 c w inst) =
        (.error err, w4) ∧
      resourceReadInstance sortSlice c w =
        (some ("Cannot retrieve interface: " ++ err), w4)) ∨
    (∃ inst ifs networks w4 err, (c.GetInstance w.d.id w.remote).1 = .ok inst ∧
      interfacesAnswer c w inst = .ok ifs ∧
      readInterfaces c ((sortSlice ifs).map (fun i => i.UUID)) (readW3 c w inst) =
        (.ok networks, w4) ∧
      (c.GetMetadata ResourceType.TypeInstance inst.UUID w4.remote).1 = .error err ∧
      resourceReadInstance sortSlice c w =
        (some ("ReadInstance unable to retrieve metadata: " ++ err),
          (apiGetMetadata c ResourceType.TypeInstance inst.UUID (readW5 w4 networks)).2)) ∨
    (∃ inst ifs networks w4 md, (c.GetInstance w.d.id w.remote).1 = .ok inst ∧
      interfacesAnswer c w inst = .ok ifs ∧
      readInterfaces c ((sortSlice ifs).map (fun i => i.UUID)) (readW3 c w inst) =
        (.ok networks, w4) ∧
      (c.GetMetadata ResourceType.TypeInstance inst.UUID w4.remote).1 = .ok md ∧
      resourceReadInstance sortSlice c w =
        (none,
          { (apiGetMetadata c ResourceType.TypeInstance inst.UUID (readW5 w4 networks)).2 with
            d := { (readW5 w4 networks).d with
              metadata := md } })) := by
  rcases hg : (c.GetInstance w.d.id w.remote).1 with err | inst
  · exact Or.inl ⟨err, rfl, read_getInstance_error sortSlice c w err hg⟩
  · rcases hi : interfacesAnswer c w inst with err | ifs
    · exact Or.inr (Or.inl ⟨inst, err, rfl, hi, read_interfaces_error sortSlice c w inst err hg hi⟩)
    · rcases hr : readInterfaces c ((sortSlice ifs).map (fun i => i.UUID)) (readW3 c w inst)
        with ⟨r, w4⟩
      rcases r with err | networks
      · exact Or.inr (Or.inr (Or.inl ⟨inst, ifs, err, w4, rfl, hi, hr,
          read_interface_error sortSlice c w w4 inst ifs err hg hi hr⟩))
      · rcases hm : (c.GetMetadata ResourceType.TypeInstance inst.UUID w4.remote).1
          with err | md
        · exact Or.inr (Or.inr (Or.inr (Or.inl ⟨inst, ifs, networks, w4, err, rfl, hi, hr, hm,
            read_metadata_error sortSlice c w w4 inst ifs networks err hg hi hr hm⟩)))
        · exact Or.inr (Or.inr (Or.inr (Or.inr ⟨inst, ifs, networks, w4, md, rfl, hi, hr, hm,
            read_ok sortSlice c w w4 inst ifs networks md hg hi hr hm⟩)))

theorem readW3_d (c : Client σ) (w : World σ) (inst : Instance) :
    (readW3 c w inst).d = setInstanceAttrs inst w.d := rfl

theorem readW3_retries (c : Client σ) (w : World σ) (inst : Instance) :
    (readW3 c w inst).retries = w.retries := rfl

theorem readW3_calls (c : Client σ) (w : World σ) (inst : Instance) :
    (readW3 c w inst).calls =
      w.calls ++ [Call.GetInstance w.d.id] ++ [Call.GetInstanceInterfaces w.d.id] := rfl

theorem readW3_failures_ok (c : Client σ) (w : World σ) (inst : Instance)
    (ifs : List NetworkInterface) (hg : (c.GetInstance w.d.id w.remote).1 = .ok inst)
    (hi : interfacesAnswer c w inst = .ok ifs) :
    (readW3 c w inst).failures = w.failures := by
  simp only [interfacesAnswer, readW2, afterGet, apiGetInstance, World.log_remote] at hi
  simp [readW3, apiGetInstanceInterfaces, hi, isError, readW2, afterGet, apiGetInstance, hg]

theorem readW3_failures_error (c : Client σ) (w : World σ) (inst : Instance) (err : String)
    (hg : (c.GetInstance w.d.id w.remote).1 = .ok inst)
    (hi : interfacesAnswer c w inst = .error err) :
    (readW3 c w inst).failures = w.failures ++ [Call.GetInstanceInterfaces w.d.id] := by
  simp only [interfacesAnswer, readW2, afterGet, apiGetInstance, World.log_remote] at hi
  simp [readW3, apiGetInstanceInterfaces, hi, isError, readW2, afterGet, apiGetInstance, hg,
    setInstanceAttrs]

/-- A read never changes the retry count or the identifier. -/
theorem read_frame (sortSlice : List NetworkInterface → List NetworkInterface)
    (c : Client σ) (w : World σ) :
    (resourceReadInstance sortSlice c w).2.retries = w.retries ∧
    (resourceReadInstance sortSlice c w).2.d.id = w.d.id := by
  rcases read_cases sortSlice c w with ⟨err, _, h⟩ | ⟨inst, err, _, _, h⟩ |
    ⟨inst, ifs, err, w4, _, _, hr, h⟩ | ⟨inst, ifs, networks, w4, err, _, _, hr, _, h⟩ |
    ⟨inst, ifs, networks, w4, md, _, _, hr, _, h⟩
  · rw [h]; exact ⟨rfl, rfl⟩
  · rw [h]; exact ⟨rfl, rfl⟩
  · rw [h]
    have hs := readInterfaces_spec c ((sortSlice ifs).map (fun i => i.UUID)) (readW3 c w inst)
    rw [hr] at hs
    exact ⟨hs.2.1, by rw [hs.1]; rfl⟩
  · rw [h]
    have hs := readInterfaces_spec c ((sortSlice ifs).map (fun i => i.UUID)) (readW3 c w inst)
    rw [hr] at hs
    refine ⟨hs.2.1, ?_⟩
    show w4.d.id = w.d.id
    rw [hs.1]; rfl
  · rw [h]
    have hs := readInterfaces_spec c ((sortSlice ifs).map (fun i => i.UUID)) (readW3 c w inst)
    rw [hr] at hs
    refine ⟨hs.2.1, ?_⟩
    show w4.d.id = w.d.id
    rw [hs.1]; rfl

/-- A read returns an error exactly when one of its fetches failed. -/
theorem read_error_iff_failure (sortSlice : List NetworkInterface → List NetworkInterface)
    (c : Client σ) (w : World σ) :
    (resourceReadInstance sortSlice c w).1 ≠ none ↔
      (resourceReadInstance sortSlice c w).2.failures ≠ w.failures := by
  rcases read_cases sortSlice c w with ⟨err, hg, h⟩ | ⟨inst, err, hg, hi, h⟩ |
    ⟨inst, ifs, err, w4, hg, hi, hr, h⟩ | ⟨inst, ifs, networks, w4, err, hg, hi, hr, hm, h⟩ |
    ⟨inst, ifs, networks, w4, md, hg, hi, hr, hm, h⟩
  · rw [h]
    simp [afterGet, apiGetInstance, hg, isError]
  · rw [h]
    simp [readW3_failures_error c w inst err hg hi]
  · rw [h]
    have hs := readInterfaces_spec c ((sortSlice ifs).map (fun i => i.UUID)) (readW3 c w inst)
    rw [hr] at hs
    obtain ⟨u, _, _, hf⟩ := hs.2.2.2 err rfl
    simp only [readW3_failures_ok c w inst ifs hg hi] at hf
    simp [hf]
  · rw [h]
    have hs := readInterfaces_spec c ((sortSlice ifs).map (fun i => i.UUID)) (readW3 c w inst)
    rw [hr] at hs
    have hf := (hs.2.2.1 networks rfl).2.1
    simp only [readW3_failures_ok c w inst ifs hg hi] at hf
    simp [apiGetMetadata, hm, isError, readW5, hf]
  · rw [h]
    have hs := readInterfaces_spec c ((sortSlice ifs).map (fun i => i.UUID)) (readW3 c w inst)
    rw [hr] at hs
    have hf := (hs.2.2.1 networks rfl).2.1
    simp only [readW3_failures_ok c w inst ifs hg hi] at hf
    simp [apiGetMetadata, hm, isError, readW5, hf]

/-- C9, amended: a read in which a fetch fails returns a non-nil error, the
error of the fetch under one of the four read contexts, and leaves the
identifier and the `metadata` attribute as they were; exactly one failure is
logged, and it is one of the four kinds of fetch. What the resource data
holds depends on which fetch it is. When `GetInstance` fails, the resource
data is unchanged. When `GetInstanceInterfaces` or a `GetInterface` fails,
the resource data is the old one with the attributes of the fetched record
written, the `network` attribute still the old one. When `GetMetadata` fails,
the `network` attribute is written too: it holds, in sorted order, the
entries built from the interface answers. -/
theorem read_failure_keeps_written_attributes
    (sortSlice : List NetworkInterface → List NetworkInterface) (c : Client σ) (w : World σ)
    (hfail : (resourceReadInstance sortSlice c w).2.failures ≠ w.failures) :
    (∃ ctx err, ctx ∈ readContexts ∧
      (resourceReadInstance sortSlice c w).1 = some (ctx ++ err)) ∧
    (resourceReadInstance sortSlice c w).2.d.id = w.d.id ∧
    (resourceReadInstance sortSlice c w).2.d.metadata = w.d.metadata ∧
    (∃ call, (resourceReadInstance sortSlice c w).2.failures = w.failures ++ [call] ∧
      (call = Call.GetInstance w.d.id ∨ call = Call.GetInstanceInterfaces w.d.id ∨
        (∃ u, call = Call.GetInterface u) ∨
        ∃ inst, (c.GetInstance w.d.id w.remote).1 = .ok inst ∧
          call = Call.GetMetadata ResourceType.TypeInstance inst.UUID)) ∧
    ((resourceReadInstance sortSlice c w).2.failures =
        w.failures ++ [Call.GetInstance w.d.id] →
      (∃ err, (c.GetInstance w.d.id w.remote).1 = .error err ∧
        (resourceReadInstance sortSlice c w).1 =
          some ("Unable to retrieve instance: " ++ err)) ∧
      (resourceReadInstance sortSlice c w).2.d = w.d) ∧
    ((resourceReadInstance sortSlice c w).2.failures =
        w.failures ++ [Call.GetInstanceInterfaces w.d.id] →
      ∃ inst err, (c.GetInstance w.d.id w.remote).1 = .ok inst ∧
        interfacesAnswer c w inst = .error err ∧
        (resourceReadInstance sortSlice c w).1 =
          some ("ReadInstance error: " ++ ("unable to retrieve instance interfaces: " ++ err)) ∧
        (resourceReadInstance sortSlice c w).2.d = setInstanceAttrs inst w.d) ∧
    (∀ u, (resourceReadInstance sortSlice c w).2.failures =
        w.failures ++ [Call.GetInterface u] →
      ∃ inst err, (c.GetInstance w.d.id w.remote).1 = .ok inst ∧
        (∃ s, (c.GetInterface u s).1 = .error err) ∧
        (resourceReadInstance sortSlice c w).1 =
          some ("Cannot retrieve interface: " ++ err) ∧
        (resourceReadInstance sortSlice c w).2.d = setInstanceAttrs inst w.d) ∧
    (∀ kind uuid, (resourceReadInstance sortSlice c w).2.failures =
        w.failures ++ [Call.GetMetadata kind uuid] →
      ∃ inst ifs networks err, (c.GetInstance w.d.id w.remote).1 = .ok inst ∧
        interfacesAnswer c w inst = .ok ifs ∧
        List.Forall₂ (answersInterface c) ((sortSlice ifs).map (fun i => i.UUID)) networks ∧
        (∃ s, (c.GetMetadata ResourceType.TypeInstance inst.UUID s).1 = .error err) ∧
        (resourceReadInstance sortSlice c w).1 =
          some ("ReadInstance unable to retrieve metadata: " ++ err) ∧
        (resourceReadInstance sortSlice c w).2.d =
          { setInstanceAttrs inst w.d with network := networks }) := by
  have hne := (read_error_iff_failure sortSlice c w).2 hfail
  rcases read_cases sortSlice c w with ⟨err, hg, h⟩ | ⟨inst, err, hg, hi, h⟩ |
    ⟨inst, ifs, err, w4, hg, hi, hr, h⟩ | ⟨inst, ifs, networks, w4, err, hg, hi, hr, hm, h⟩ |
    ⟨inst, ifs, networks, w4, md, hg, hi, hr, hm, h⟩
  · have hf : (resourceReadInstance sortSlice c w).2.failures =
        w.failures ++ [Call.GetInstance w.d.id] := by
      rw [h]; simp [afterGet, apiGetInstance, hg, isError]
    rw [hf]
    refine ⟨⟨"Unable to retrieve instance: ", err, by simp [readContexts], by rw [h]⟩,
      by rw [h]; rfl, by rw [h]; rfl,
      ⟨_, rfl, Or.inl rfl⟩, fun _ => ⟨⟨err, hg, by rw [h]⟩, by rw [h]; rfl⟩, ?_, ?_, ?_⟩
    · intro h2; simp at h2
    · intro u h2; simp at h2
    · intro kind uuid h2; simp at h2
  · have hf : (resourceReadInstance sortSlice c w).2.failures =
        w.failures ++ [Call.GetInstanceInterfaces w.d.id] := by
      rw [h]; exact readW3_failures_error c w inst err hg hi
    rw [hf]
    refine ⟨⟨"ReadInstance error: ", _, by simp [readContexts], by rw [h]⟩, by rw [h]; rfl,
      by rw [h]; rfl, ⟨_, rfl, Or.inr (Or.inl rfl)⟩, ?_,
      fun _ => ⟨inst, err, hg, hi, by rw [h], by rw [h]; rfl⟩, ?_, ?_⟩
    · intro h2; simp at h2
    · intro u h2; simp at h2
    · intro kind uuid h2; simp at h2
  · have hs := readInterfaces_spec c ((sortSlice ifs).map (fun i => i.UUID)) (readW3 c w inst)
    rw [hr] at hs
    have hd : w4.d = setInstanceAttrs inst w.d := hs.1
    obtain ⟨v, _, hsv, hfv⟩ := hs.2.2.2 err rfl
    have hf : (resourceReadInstance sortSlice c w).2.failures =
        w.failures ++ [Call.GetInterface v] := by
      rw [h]
      simpa only [readW3_failures_ok c w inst ifs hg hi] using hfv
    have hdd : (resourceReadInstance sortSlice c w).2.d = setInstanceAttrs inst w.d := by
      rw [h]; exact hd
    rw [hf, hdd]
    refine ⟨⟨"Cannot retrieve interface: ", err, by simp [readContexts], by rw [h]⟩, rfl, rfl,
      ⟨_, rfl, Or.inr (Or.inr (Or.inl ⟨v, rfl⟩))⟩, ?_, ?_, ?_, ?_⟩
    · intro h2; simp at h2
    · intro h2; simp at h2
    · intro u h2
      have huv : v = u := by simpa using h2
      subst huv
      exact ⟨inst, err, hg, hsv, by rw [h], rfl⟩
    · intro kind uuid h2; simp at h2
  · have hs := readInterfaces_spec c ((sortSlice ifs).map (fun i => i.UUID)) (readW3 c w inst)
    rw [hr] at hs
    have hd : w4.d = setInstanceAttrs inst w.d := hs.1
    obtain ⟨_, hf4, hall⟩ := hs.2.2.1 networks rfl
    have hf4b : w4.failures = w.failures := by
      simpa only [readW3_failures_ok c w inst ifs hg hi] using hf4
    have hf : (resourceReadInstance sortSlice c w).2.failures =
        w.failures ++ [Call.GetMetadata ResourceType.TypeInstance inst.UUID] := by
      rw [h]
      simp [apiGetMetadata, hm, isError, readW5, hf4b]
    have hdd : (resourceReadInstance sortSlice c w).2.d =
        { setInstanceAttrs inst w.d with network := networks } := by
      rw [h]
      simp [apiGetMetadata, readW5, hd]
    rw [hf, hdd]
    refine ⟨⟨"ReadInstance unable to retrieve metadata: ", err, by simp [readContexts],
      by rw [h]⟩, rfl, rfl, ⟨_, rfl, Or.inr (Or.inr (Or.inr ⟨inst, hg, rfl⟩))⟩, ?_, ?_, ?_, ?_⟩
    · intro h2; simp at h2
    · intro h2; simp at h2
    · intro u h2; simp at h2
    · intro kind uuid _
      exact ⟨inst, ifs, networks, err, hg, hi, hall, ⟨w4.remote, hm⟩, by rw [h], rfl⟩
  · rw [h] at hne
    exact absurd rfl hne

/-- C9, the amended claim on two concrete runs: the interface listing fails,
and the `network` attribute is still the old, empty one; the metadata fetch
fails, and the `network` attribute holds the entries of the three
interfaces in sorted order. -/
theorem read_failure_keeps_written_attributes_witness :
    (∃ inst err,
      ((scripted { plainScenario with interfaces := .error "boom" }).GetInstance "i-1"
        [.ok (instanceIn "i-1" "created")]).1 = .ok inst ∧
      interfacesAnswer (scripted { plainScenario with interfaces := .error "boom" })
        (startWorld [.ok (instanceIn "i-1" "created")] { freshData with id := "i-1" }) inst =
          .error err ∧
      (resourceReadInstance sortByOrder
        (scripted { plainScenario with interfaces := .error "boom" })
        (startWorld [.ok (instanceIn "i-1" "created")] { freshData with id := "i-1" })).1 =
          some ("ReadInstance error: " ++ ("unable to retrieve instance interfaces: " ++ err)) ∧
      (resourceReadInstance sortByOrder
        (scripted { plainScenario with interfaces := .error "boom" })
        (startWorld [.ok (instanceIn "i-1" "created")] { freshData with id := "i-1" })).2.d =
          setInstanceAttrs inst { freshData with id := "i-1" }) ∧
    (resourceReadInstance sortByOrder
        (scripted { shuffledScenario with metadata := .error "boom" })
        (startWorld [.ok (instanceIn "i-1" "created")]
          { freshData with id := "i-1" })).2.d.network.map (fun a => a.interface_uuid) =
      ["if-a", "if-b", "if-c"] :=
  ⟨(read_failure_keeps_written_attributes sortByOrder
      (scripted { plainScenario with interfaces := .error "boom" })
      (startWorld [.ok (instanceIn "i-1" "created")] { freshData with id := "i-1" })
      (by decide)).2.2.2.2.2.1 rfl, rfl⟩

/-- C9, counterexample: the instance fetch succeeds and the interface listing
fails; the read returns an error, yet the resource data already carries the
fetched name, node and state. -/
theorem read_failure_exposes_partial_data :
    (resourceReadInstance sortByOrder
        (scripted { plainScenario with interfaces := .error "boom" })
        (startWorld [.ok (instanceIn "i-1" "created")] { freshData with id := "i-1" })).1 =
      some "ReadInstance error: unable to retrieve instance interfaces: boom" ∧
    (resourceReadInstance sortByOrder
        (scripted { plainScenario with interfaces := .error "boom" })
        (startWorld [.ok (instanceIn "i-1" "created")] { freshData with id := "i-1" })).2.d.state =
      "created" ∧
    ({ freshData with id := "i-1" } : ResourceData).state = "" ∧
    (resourceReadInstance sortByOrder
        (scripted { plainScenario with interfaces := .error "boom" })
        (startWorld [.ok (instanceIn "i-1" "created")] { freshData with id := "i-1" })).2.d ≠
      { freshData with id := "i-1" } := by
  refine ⟨rfl, rfl, rfl, ?_⟩
  intro h
  exact absurd (congrArg ResourceData.state h) (by decide)

/-! ## The call log only grows -/

theorem Extends.refl (w : World σ) : Extends w w := ⟨[], by simp⟩

theorem Extends.trans {w1 w2 w3 : World σ} (h1 : Extends w1 w2) (h2 : Extends w2 w3) :
    Extends w1 w3 := by
  obtain ⟨e1, h1⟩ := h1
  obtain ⟨e2, h2⟩ := h2
  exact ⟨e1 ++ e2, by rw [h2, h1, List.append_assoc]⟩

theorem Extends.log (w : World σ) (s : σ) (call : Call) (failed : Bool) :
    Extends w (w.log s call failed) := ⟨[call], rfl⟩

theorem readInterfaces_extends (c : Client σ) (us : List String) (w : World σ) :
    Extends w (readInterfaces c us w).2 := by
  induction us generalizing w with
  | nil => exact Extends.refl w
  | cons u us ih =>
    unfold readInterfaces
    cases hg : (c.GetInterface u w.remote).1 with
    | error e =>
      simp only [apiGetInterface, hg]
      exact Extends.log _ _ _ _
    | ok n =>
      simp only [apiGetInterface, hg]
      have h := ih (w.log (c.GetInterface u w.remote).2 (Call.GetInterface u)
        (isError (Except.ok n)))
      rcases hri : readInterfaces c us
        (w.log (c.GetInterface u w.remote).2 (Call.GetInterface u) (isError (Except.ok n)))
        with ⟨r, w4⟩
      rw [hri] at h
      cases r <;> exact (Extends.log _ _ _ _).trans h

theorem read_extends (sortSlice : List NetworkInterface → List NetworkInterface)
    (c : Client σ) (w : World σ) : Extends w (resourceReadInstance sortSlice c w).2 := by
  have h3 : ∀ inst, Extends w (readW3 c w inst) := fun inst => ⟨_, readW3_calls c w inst |>.trans
    (List.append_assoc _ _ _)⟩
  rcases read_cases sortSlice c w with ⟨err, hg, h⟩ | ⟨inst, err, hg, hi, h⟩ |
    ⟨inst, ifs, err, w4, hg, hi, hr, h⟩ | ⟨inst, ifs, networks, w4, err, hg, hi, hr, hm, h⟩ |
    ⟨inst, ifs, networks, w4, md, hg, hi, hr, hm, h⟩
  · rw [h]; exact ⟨_, afterGet_calls c w⟩
  · rw [h]; exact h3 inst
  · rw [h]
    have hs := readInterfaces_extends c ((sortSlice ifs).map (fun i => i.UUID)) (readW3 c w inst)
    rw [hr] at hs
    exact (h3 inst).trans hs
  · rw [h]
    have hs := readInterfaces_extends c ((sortSlice ifs).map (fun i => i.UUID)) (readW3 c w inst)
    rw [hr] at hs
    exact ((h3 inst).trans hs).trans ⟨[Call.GetMetadata ResourceType.TypeInstance inst.UUID], rfl⟩
  · rw [h]
    have hs := readInterfaces_extends c ((sortSlice ifs).map (fun i => i.UUID)) (readW3 c w inst)
    rw [hr] at hs
    exact ((h3 inst).trans hs).trans ⟨[Call.GetMetadata ResourceType.TypeInstance inst.UUID], rfl⟩

theorem createPoll_extends (sortSlice : List NetworkInterface → List NetworkInterface)
    (c : Client σ) (w : World σ) : Extends w (createPoll sortSlice c w).2 := by
  have hget : Extends w (afterGet c w) := ⟨_, afterGet_calls c w⟩
  unfold createPoll
  cases hg : (c.GetInstance w.d.id w.remote).1 with
  | error err =>
    simp only [apiGetInstance, hg]
    split <;> exact hget
  | ok i =>
    simp only [apiGetInstance, hg]
    split
    · exact hget
    · split
      · exact hget
      · exact hget.trans (read_extends sortSlice c _)

theorem deletePoll_extends (c : Client σ) (w : World σ) : Extends w (deletePoll c w).2 := by
  have hget : Extends w (afterGet c w) := ⟨_, afterGet_calls c w⟩
  unfold deletePoll
  cases hg : (c.GetInstance w.d.id w.remote).1 with
  | error err =>
    simp only [apiGetInstance, hg]
    split <;> exact hget
  | ok i =>
    simp only [apiGetInstance, hg]
    split
    · exact hget
    · split
      · exact hget
      · exact hget

theorem retryLoop_extends (f : World σ → Option RetryError × World σ)
    (hf : ∀ w, Extends w (f w).2) (n : Nat) (last : String) (w : World σ) :
    Extends w (retryLoop f n last w).2 := by
  induction n generalizing w last with
  | zero => exact Extends.refl w
  | succ n ih =>
    unfold retryLoop
    have h := hf w
    rcases hr : f w with ⟨r, w1⟩
    rw [hr] at h
    cases r with
    | none => exact h
    | some rerr =>
      simp only
      split
      · exact h.trans (ih rerr.Err { w1 with retries := w1.retries + 1 })
      · exact h

/-! ## The translation of the desired state -/

/-- With at most one video entry, the first call that create adds to the log
is its `CreateInstance` call. -/
theorem create_issues_create_first (sortSlice : List NetworkInterface → List NetworkInterface)
    (c : Client σ) (w : World σ) (hv : w.d.video.length ≤ 1) :
    ∃ ext, (resourceCreateInstance sortSlice c w).2.calls =
      w.calls ++ createCallOf w.d (videoSpecOf w.d.video) :: ext := by
  have hfirst : ∀ w2 : World σ, Extends (afterCreate c w) w2 →
      ∃ ext, w2.calls = w.calls ++ createCallOf w.d (videoSpecOf w.d.video) :: ext := by
    intro w2 h
    obtain ⟨ext, he⟩ := h
    exact ⟨ext, by rw [he, afterCreate_calls]; simp⟩
  apply hfirst
  rcases hc : (createAnswer c w).1 with err | inst
  · have h := createIssue_create_error c w hv err hc
    rw [resourceCreateInstance_issue_error sortSlice c w (by rw [h]; simp), h]
    exact Extends.refl _
  · by_cases hu : inst.UUID = ""
    · have h := createIssue_empty_uuid c w hv inst hc hu
      rw [resourceCreateInstance_issue_error sortSlice c w (by rw [h]; simp), h]
      exact Extends.refl _
    · have h := createIssue_created c w hv inst hc hu
      have hlog := (setMetadataLoop_log c inst.UUID (dGetMetadata w.d)
        { afterCreate c w with d := { w.d with uuid := inst.UUID, id := inst.UUID } }).1
      rw [← h] at hlog
      have hext : Extends (afterCreate c w) (createIssue c w).2 := by
        obtain ⟨ext, he, _⟩ := hlog
        exact ⟨ext, he⟩
      rcases hr : createIssue c w with ⟨r, w1⟩
      rw [hr] at hext
      cases r with
      | some e =>
        rw [resourceCreateInstance_issue_error sortSlice c w (by rw [hr]; simp), hr]
        exact hext
      | none =>
        rw [resourceCreateInstance_issue_ok sortSlice c w w1 hr]
        exact hext.trans (retryLoop_extends _ (createPoll_extends sortSlice c) _ _ w1)

/-- C5: the video translation of create follows the reference translation.
Where the reference fails (more than one entry), create fails with the
video-card error in the very world it started from, so no remote call is
issued; where the reference yields a card, that card is the one in the
`CreateInstance` call that create issues first. The reference yields the
default card {cirrus, 16384} for no entry and the entry itself for one. -/
theorem create_video_follows_reference
    (sortSlice : List NetworkInterface → List NetworkInterface) (c : Client σ) (w : World σ) :
    (∀ msg, specTranslateVideo w.d.video = .error msg →
      resourceCreateInstance sortSlice c w =
        (some "Instances only accept one video card ", w)) ∧
    (∀ v, specTranslateVideo w.d.video = .ok v →
      ∃ ext, (resourceCreateInstance sortSlice c w).2.calls =
        w.calls ++ createCallOf w.d v :: ext) ∧
    (1 < w.d.video.length → ∃ msg, specTranslateVideo w.d.video = .error msg) ∧
    (w.d.video = [] →
      specTranslateVideo w.d.video = .ok { Model := "cirrus", Memory := 16384 }) ∧
    (∀ x, w.d.video = [x] →
      specTranslateVideo w.d.video = .ok { Model := x.model, Memory := x.memory }) := by
  refine ⟨?_, ?_, ?_, ?_, ?_⟩
  · intro msg h
    have hlen : 1 < w.d.video.length := by
      rcases hvid : w.d.video with _ | ⟨x, _ | ⟨y, rest⟩⟩
      · rw [hvid] at h; simp [specTranslateVideo] at h
      · rw [hvid] at h; simp [specTranslateVideo] at h
      · simp
    have hi := createIssue_video_many c w hlen
    rw [resourceCreateInstance_issue_error sortSlice c w (by rw [hi]; simp), hi]
  · intro v h
    rcases hvid : w.d.video with _ | ⟨x, _ | ⟨y, rest⟩⟩
    · rw [hvid] at h
      simp only [specTranslateVideo, Except.ok.injEq] at h
      have := create_issues_create_first sortSlice c w (by rw [hvid]; simp)
      rw [hvid] at this
      rw [← h]
      exact this
    · rw [hvid] at h
      simp only [specTranslateVideo, Except.ok.injEq] at h
      have := create_issues_create_first sortSlice c w (by rw [hvid]; simp)
      rw [hvid] at this
      rw [← h]
      exact this
    · rw [hvid] at h; simp [specTranslateVideo] at h
  · intro h
    rcases hvid : w.d.video with _ | ⟨x, _ | ⟨y, rest⟩⟩
    · rw [hvid] at h; simp at h
    · rw [hvid] at h; simp at h
    · exact ⟨_, rfl⟩
  · intro h
    rw [h]; rfl
  · intro x h
    rw [h]; rfl

theorem afterCreate_failures_ok (c : Client σ) (w : World σ) (inst : Instance)
    (hc : (createAnswer c w).1 = .ok inst) : (afterCreate c w).failures = w.failures := by
  unfold createAnswer at hc
  simp [afterCreate, apiCreateInstance, hc, isError]

/-- The metadata loop on the entries that `d.Get("metadata")` delivers: it
pushes them in order and fails only on a failed `SetMetadata`. -/
theorem setMetadataLoop_strings (c : Client σ) (uuid : String) (md : List (String × String))
    (w : World σ) :
    ((setMetadataLoop c uuid (md.map (fun kv => (kv.1, Value.str kv.2))) w).1 = none ∧
      (setMetadataLoop c uuid (md.map (fun kv => (kv.1, Value.str kv.2))) w).2.calls =
        w.calls ++ md.map (setCall uuid) ∧
      (setMetadataLoop c uuid (md.map (fun kv => (kv.1, Value.str kv.2))) w).2.failures =
        w.failures) ∨
    (∃ pre kv post err, md = pre ++ kv :: post ∧
      (∃ s, (c.SetMetadata ResourceType.TypeInstance uuid kv.1 kv.2 s).1 = some err) ∧
      (setMetadataLoop c uuid (md.map (fun kv => (kv.1, Value.str kv.2))) w).1 =
        some ("CreateInstance cannot store metadata: " ++ err) ∧
      (setMetadataLoop c uuid (md.map (fun kv => (kv.1, Value.str kv.2))) w).2.calls =
        w.calls ++ (pre ++ [kv]).map (setCall uuid) ∧
      (setMetadataLoop c uuid (md.map (fun kv => (kv.1, Value.str kv.2))) w).2.failures =
        w.failures ++ [setCall uuid kv]) := by
  induction md generalizing w with
  | nil => exact Or.inl ⟨rfl, by simp [setMetadataLoop], rfl⟩
  | cons kv rest ih =>
    obtain ⟨k, v⟩ := kv
    simp only [List.map_cons, setMetadataLoop]
    cases hr : (c.SetMetadata ResourceType.TypeInstance uuid k v w.remote).1 with
    | some err =>
      simp only [apiSetMetadata, hr]
      refine Or.inr ⟨[], (k, v), rest, err, rfl, ⟨w.remote, hr⟩, rfl, ?_, ?_⟩
      · simp [setCall]
      · simp [setCall]
    | none =>
      simp only [apiSetMetadata, hr]
      rcases ih (w.log (c.SetMetadata ResourceType.TypeInstance uuid k v w.remote).2
        (Call.SetMetadata ResourceType.TypeInstance uuid k v) none.isSome) with
        ⟨h1, h2, h3⟩ | ⟨pre, kv, post, e, hmd, hs, h1, h2, h3⟩
      · refine Or.inl ⟨h1, ?_, ?_⟩
        · rw [h2]; simp [setCall]
        · rw [h3]; simp
      · refine Or.inr ⟨(k, v) :: pre, kv, post, e, by rw [hmd]; rfl, hs, h1, ?_, ?_⟩
        · rw [h2]; simp [setCall]
        · rw [h3]; simp

/-- C4, amended: the handler receives the metadata values as the strings the
schema makes of them, and validates nothing before the remote calls. Once
`CreateInstance` has answered with a non-empty UUID, the metadata loop pushes
the entries with `SetMetadata` in map order. When the issue phase succeeds,
every entry has been pushed, no call has failed and create goes on to the
poll. When the issue phase fails, a `SetMetadata` call has failed: the error
is that call's error under the metadata context, the log holds the
`CreateInstance` call and the `SetMetadata` calls up to the failing one, and
create returns at once. -/
theorem create_pushes_metadata_after_create
    (sortSlice : List NetworkInterface → List NetworkInterface) (c : Client σ) (w : World σ)
    (inst : Instance) (hv : w.d.video.length ≤ 1)
    (hc : (createAnswer c w).1 = .ok inst) (hu : inst.UUID ≠ "") :
    ((createIssue c w).1 = none →
      (createIssue c w).2.calls =
        w.calls ++ createCallOf w.d (videoSpecOf w.d.video) ::
          w.d.metadata.map (setCall inst.UUID) ∧
      (createIssue c w).2.failures = w.failures ∧
      resourceCreateInstance sortSlice c w =
        Retry (createIssue c w).2.d.timeoutCreate (createPoll sortSlice c)
          (createIssue c w).2) ∧
    (∀ e, (createIssue c w).1 = some e →
      ∃ pre kv post err, w.d.metadata = pre ++ kv :: post ∧
        (∃ s, (c.SetMetadata ResourceType.TypeInstance inst.UUID kv.1 kv.2 s).1 = some err) ∧
        e = "CreateInstance cannot store metadata: " ++ err ∧
        (createIssue c w).2.calls =
          w.calls ++ createCallOf w.d (videoSpecOf w.d.video) ::
            (pre ++ [kv]).map (setCall inst.UUID) ∧
        (createIssue c w).2.failures = w.failures ++ [setCall inst.UUID kv] ∧
        resourceCreateInstance sortSlice c w = createIssue c w) := by
  have hi := createIssue_created c w hv inst hc hu
  have hcalls : ∀ l : List Call,
      ({ afterCreate c w with d := { w.d with uuid := inst.UUID, id := inst.UUID } } :
        World σ).calls ++ l = w.calls ++ createCallOf w.d (videoSpecOf w.d.video) :: l := by
    intro l
    show (afterCreate c w).calls ++ l = _
    rw [afterCreate_calls]; simp
  have hfail : ({ afterCreate c w with d := { w.d with uuid := inst.UUID, id := inst.UUID } } :
      World σ).failures = w.failures := afterCreate_failures_ok c w inst hc
  rcases setMetadataLoop_strings c inst.UUID w.d.metadata
      { afterCreate c w with d := { w.d with uuid := inst.UUID, id := inst.UUID } } with
    ⟨h1, h2, h3⟩ | ⟨pre, kv, post, err, hmd, hs, h1, h2, h3⟩
  · have h1b : (createIssue c w).1 = none := by rw [hi]; exact h1
    refine ⟨fun _ => ⟨?_, ?_, ?_⟩, ?_⟩
    · rw [hi, dGetMetadata, h2, hcalls]
    · rw [hi, dGetMetadata, h3, hfail]
    · exact resourceCreateInstance_issue_ok sortSlice c w _ (Prod.ext h1b rfl)
    · intro e he
      rw [h1b] at he
      cases he
  · have h1b : (createIssue c w).1 = some ("CreateInstance cannot store metadata: " ++ err) := by
      rw [hi]; exact h1
    refine ⟨fun hn => ?_, ?_⟩
    · rw [h1b] at hn
      cases hn
    · intro e he
      rw [h1b] at he
      cases he
      refine ⟨pre, kv, post, err, hmd, hs, rfl, ?_, ?_, ?_⟩
      · rw [hi, dGetMetadata, h2, hcalls]
      · rw [hi, dGetMetadata, h3, hfail]
      · exact resourceCreateInstance_issue_error sortSlice c w (by rw [h1b]; simp)

/-- C4, the amended claim on a concrete run: a desired state with a string
and a number in its metadata; both entries are pushed after the create
call. -/
theorem create_pushes_metadata_after_create_witness :
    (createIssue (scripted plainScenario)
        (startWorld [] { freshData with
          metadata := schemaMetadata [("owner", Value.str "ops"), ("tier", Value.int 3)] })
      ).2.calls =
      [] ++ createCallOf freshData { Model := "cirrus", Memory := 16384 } ::
        [Call.SetMetadata ResourceType.TypeInstance "i-1" "owner" "ops",
          Call.SetMetadata ResourceType.TypeInstance "i-1" "tier" "3"] :=
  ((create_pushes_metadata_after_create sortByOrder (scripted plainScenario)
    (startWorld [] { freshData with
      metadata := schemaMetadata [("owner", Value.str "ops"), ("tier", Value.int 3)] })
    (instanceIn "i-1" "initializing") (by decide) rfl (by decide)).1 rfl).1

/-- C4, counterexample: the desired state writes the number 3 under "tier".
The handler receives the string "3"; create issues `CreateInstance`, pushes
the entry with `SetMetadata`, polls, reads back and returns a nil error. -/
theorem create_nonstring_metadata_is_pushed :
    (∃ kv ∈ [("tier", Value.int 3)], notString kv.2 = true) ∧
    schemaMetadata [("tier", Value.int 3)] = [("tier", "3")] ∧
    (resourceCreateInstance sortByOrder (scripted plainScenario)
      (startWorld [.ok (instanceIn "i-1" "created"), .ok (instanceIn "i-1" "created")]
        { freshData with metadata := schemaMetadata [("tier", Value.int 3)] })).1 = none ∧
    (resourceCreateInstance sortByOrder (scripted plainScenario)
      (startWorld [.ok (instanceIn "i-1" "created"), .ok (instanceIn "i-1" "created")]
        { freshData with metadata := schemaMetadata [("tier", Value.int 3)] })).2.calls =
      [createCallOf freshData { Model := "cirrus", Memory := 16384 },
        Call.SetMetadata ResourceType.TypeInstance "i-1" "tier" "3",
        Call.GetInstance "i-1", Call.GetInstance "i-1", Call.GetInstanceInterfaces "i-1",
        Call.GetMetadata ResourceType.TypeInstance "i-1"] := by
  refine ⟨⟨("tier", Value.int 3), by simp, rfl⟩, rfl, rfl, rfl⟩

/-! ## Convergence of the create poll -/

theorem pollAgain_iterate (c : Client σ) (w : World σ) (n : Nat) :
    ((pollAgain c)^[n] w).d = w.d ∧
    ((pollAgain c)^[n] w).retries = w.retries + n ∧
    ((pollAgain c)^[n] w).calls = w.calls ++ List.replicate n (Call.GetInstance w.d.id) := by
  induction n generalizing w with
  | zero => simp
  | succ n ih =>
    rw [Function.iterate_succ_apply]
    obtain ⟨hd, hr, hc⟩ := ih (pollAgain c w)
    refine ⟨by rw [hd]; rfl, ?_, ?_⟩
    · rw [hr]
      show w.retries + 1 + n = w.retries + (n + 1)
      omega
    · rw [hc]
      show w.calls ++ [Call.GetInstance w.d.id] ++ List.replicate n (Call.GetInstance w.d.id) =
        w.calls ++ List.replicate (n + 1) (Call.GetInstance w.d.id)
      rw [List.append_assoc, List.replicate_succ]
      rfl

theorem createPoll_transient (sortSlice : List NetworkInterface → List NetworkInterface)
    (c : Client σ) (w : World σ) (h : transientAt c "created" w) :
    createPoll sortSlice c w =
      (some { Err := "instance not created", Retryable := true }, afterGet c w) := by
  obtain ⟨i, hg, he, hc⟩ := h
  simp [createPoll, afterGet, apiGetInstance, hg, he, hc, RetryableError]

theorem createPoll_reached (sortSlice : List NetworkInterface → List NetworkInterface)
    (c : Client σ) (w : World σ) (h : reachedAt c "created" w) :
    createPoll sortSlice c w =
      (NonRetryableError (resourceReadInstance sortSlice c (afterGet c w)).1,
        (resourceReadInstance sortSlice c (afterGet c w)).2) := by
  obtain ⟨i, hg, hc⟩ := h
  simp [createPoll, afterGet, apiGetInstance, hg, hc]

/-- The create poll after `n` transient answers and an answer in state
"created": the loop ends with the outcome of the read-back. -/
theorem retryLoop_createPoll_converges
    (sortSlice : List NetworkInterface → List NetworkInterface) (c : Client σ) (n : Nat) :
    ∀ (fuel : Nat) (last : String) (w : World σ), n < fuel →
      (∀ k < n, transientAt c "created" ((pollAgain c)^[k] w)) →
      reachedAt c "created" ((pollAgain c)^[n] w) →
      retryLoop (createPoll sortSlice c) fuel last w =
        resourceReadInstance sortSlice c (afterGet c ((pollAgain c)^[n] w)) := by
  induction n with
  | zero =>
    intro fuel last w hf _ hr
    obtain ⟨m, rfl⟩ : ∃ m, fuel = m + 1 := ⟨fuel - 1, by omega⟩
    exact retryLoop_nonRetryable _ m last w _ _ (createPoll_reached sortSlice c w hr)
  | succ n ih =>
    intro fuel last w hf ht hr
    obtain ⟨m, rfl⟩ : ∃ m, fuel = m + 1 := ⟨fuel - 1, by omega⟩
    rw [retryLoop_retry _ m last w _ _ (createPoll_transient sortSlice c w (ht 0 (by omega)))]
    rw [Function.iterate_succ_apply] at hr
    rw [Function.iterate_succ_apply]
    refine ih m _ (pollAgain c w) (by omega) ?_ hr
    intro k hk
    have := ht (k + 1) (by omega)
    rwa [Function.iterate_succ_apply] at this

theorem createIssue_retries (c : Client σ) (w : World σ) :
    (createIssue c w).2.retries = w.retries := by
  by_cases hv : 1 < w.d.video.length
  · rw [createIssue_video_many c w hv]
  · have hv2 : w.d.video.length ≤ 1 := by omega
    rcases hc : (createAnswer c w).1 with err | inst
    · rw [createIssue_create_error c w hv2 err hc]; rfl
    · by_cases hu : inst.UUID = ""
      · rw [createIssue_empty_uuid c w hv2 inst hc hu]; rfl
      · rw [createIssue_created c w hv2 inst hc hu]
        exact (setMetadataLoop_log c inst.UUID (dGetMetadata w.d) _).2.2

/-- What a successful read leaves in the resource data: the attributes of
the record that its own `GetInstance` received. -/
theorem read_ok_observed (sortSlice : List NetworkInterface → List NetworkInterface)
    (c : Client σ) (w : World σ) (h : (resourceReadInstance sortSlice c w).1 = none) :
    ∃ inst, (c.GetInstance w.d.id w.remote).1 = .ok inst ∧
      (resourceReadInstance sortSlice c w).2.d.state = inst.State ∧
      (resourceReadInstance sortSlice c w).2.d.uuid = inst.UUID ∧
      (resourceReadInstance sortSlice c w).2.d.name = inst.Name ∧
      (resourceReadInstance sortSlice c w).2.d.node = inst.Node := by
  rcases read_cases sortSlice c w with ⟨err, hg, h2⟩ | ⟨inst, err, hg, hi, h2⟩ |
    ⟨inst, ifs, err, w4, hg, hi, hr, h2⟩ | ⟨inst, ifs, networks, w4, err, hg, hi, hr, hm, h2⟩ |
    ⟨inst, ifs, networks, w4, md, hg, hi, hr, hm, h2⟩
  · rw [h2] at h; cases h
  · rw [h2] at h; cases h
  · rw [h2] at h; cases h
  · rw [h2] at h; cases h
  · have hs := readInterfaces_spec c ((sortSlice ifs).map (fun i => i.UUID)) (readW3 c w inst)
    rw [hr] at hs
    have hd : w4.d = setInstanceAttrs inst w.d := hs.1
    refine ⟨inst, hg, ?_, ?_, ?_, ?_⟩ <;> rw [h2] <;> simp [readW5, hd, setInstanceAttrs]

/-- C6: when the issue phase of create succeeds and the remote then answers
the poll with `n` records in a state that is neither "created" nor "error"
followed by a record in state "created", all within the attempts that the
timeout admits, create is the read-back run once in the world after the
`n + 1` poll calls: it returns the outcome of that read (on success the
resource data holds the record the read observed), the poll has logged
`n + 1` `GetInstance` calls, and exactly `n` retries are counted. -/
theorem create_poll_converges (sortSlice : List NetworkInterface → List NetworkInterface)
    (c : Client σ) (w : World σ) (n : Nat)
    (hissue : (createIssue c w).1 = none)
    (htime : n < (createIssue c w).2.d.timeoutCreate)
    (htransient : ∀ k < n, transientAt c "created" ((pollAgain c)^[k] (createIssue c w).2))
    (hcreated : reachedAt c "created" ((pollAgain c)^[n] (createIssue c w).2)) :
    resourceCreateInstance sortSlice c w =
      resourceReadInstance sortSlice c (afterGet c ((pollAgain c)^[n] (createIssue c w).2)) ∧
    (afterGet c ((pollAgain c)^[n] (createIssue c w).2)).calls =
      (createIssue c w).2.calls ++
        List.replicate (n + 1) (Call.GetInstance (createIssue c w).2.d.id) ∧
    (resourceCreateInstance sortSlice c w).2.retries = w.retries + n ∧
    ((resourceCreateInstance sortSlice c w).1 = none →
      ∃ inst, (c.GetInstance (createIssue c w).2.d.id
          (afterGet c ((pollAgain c)^[n] (createIssue c w).2)).remote).1 = .ok inst ∧
        (resourceCreateInstance sortSlice c w).2.d.state = inst.State ∧
        (resourceCreateInstance sortSlice c w).2.d.uuid = inst.UUID ∧
        (resourceCreateInstance sortSlice c w).2.d.name = inst.Name ∧
        (resourceCreateInstance sortSlice c w).2.d.node = inst.Node) := by
  obtain ⟨hd, hr, hc⟩ := pollAgain_iterate c (createIssue c w).2 n
  have heq : resourceCreateInstance sortSlice c w =
      resourceReadInstance sortSlice c
        (afterGet c ((pollAgain c)^[n] (createIssue c w).2)) := by
    rw [resourceCreateInstance_issue_ok sortSlice c w (createIssue c w).2
      (Prod.ext hissue rfl)]
    exact retryLoop_createPoll_converges sortSlice c n _ _ _ htime htransient hcreated
  refine ⟨heq, ?_, ?_, ?_⟩
  · rw [afterGet_calls, hc, hd, List.append_assoc, List.replicate_succ']
  · rw [heq, (read_frame sortSlice c _).1, afterGet_retries, hr, createIssue_retries]
  · intro hok
    rw [heq] at hok ⊢
    have h := read_ok_observed sortSlice c _ hok
    rw [afterGet_d, hd] at h
    exact h

/-- C6, the run of the specification: two answers in state "initializing",
then "created". -/
theorem create_poll_converges_witness :
    (resourceCreateInstance sortByOrder (scripted plainScenario)
        (startWorld [.ok (instanceIn "i-1" "initializing"), .ok (instanceIn "i-1" "initializing"),
          .ok (instanceIn "i-1" "created"), .ok (instanceIn "i-1" "created")] freshData)).2.retries
      = 0 + 2 ∧
    (resourceCreateInstance sortByOrder (scripted plainScenario)
        (startWorld [.ok (instanceIn "i-1" "initializing"), .ok (instanceIn "i-1" "initializing"),
          .ok (instanceIn "i-1" "created"), .ok (instanceIn "i-1" "created")] freshData)).1 =
      none ∧
    (resourceCreateInstance sortByOrder (scripted plainScenario)
        (startWorld [.ok (instanceIn "i-1" "initializing"), .ok (instanceIn "i-1" "initializing"),
          .ok (instanceIn "i-1" "created"), .ok (instanceIn "i-1" "created")] freshData)).2.d.state =
      "created" :=
  ⟨(create_poll_converges sortByOrder (scripted plainScenario)
    (startWorld [.ok (instanceIn "i-1" "initializing"), .ok (instanceIn "i-1" "initializing"),
      .ok (instanceIn "i-1" "created"), .ok (instanceIn "i-1" "created")] freshData) 2
    rfl (by decide)
    (by
      intro k hk
      interval_cases k
      · exact ⟨instanceIn "i-1" "initializing", rfl, by decide, by decide⟩
      · exact ⟨instanceIn "i-1" "initializing", rfl, by decide, by decide⟩)
    ⟨instanceIn "i-1" "created", rfl, rfl⟩).2.2.1, rfl, rfl⟩

/-! ## The interface order -/

theorem sortByOrder_sorts : SortsByOrder sortByOrder := by
  intro xs
  haveI : IsTotal NetworkInterface (fun a b => a.Order ≤ b.Order) :=
    ⟨fun a b => le_total a.Order b.Order⟩
  haveI : IsTrans NetworkInterface (fun a b => a.Order ≤ b.Order) :=
    ⟨fun a b c h1 h2 => le_trans h1 h2⟩
  refine ⟨List.perm_insertionSort _ xs, ?_⟩
  have h := List.sorted_insertionSort (fun a b : NetworkInterface => a.Order ≤ b.Order) xs
  refine List.Pairwise.imp ?_ h
  intro a b hab
  simp [orderLess, hab]

theorem sortsByOrder_ascending {sortSlice : List NetworkInterface → List NetworkInterface}
    (hsort : SortsByOrder sortSlice) (xs : List NetworkInterface) :
    (sortSlice xs).Pairwise (fun a b => a.Order ≤ b.Order) := by
  refine List.Pairwise.imp ?_ (hsort xs).2
  intro a b hab
  simpa [orderLess] using hab

/-- The sequence of order values after the sort depends only on the
interfaces, not on the order in which they arrived. -/
theorem sortsByOrder_orders_unique {sortSlice : List NetworkInterface → List NetworkInterface}
    (hsort : SortsByOrder sortSlice) (xs ys : List NetworkInterface) (h : ys.Perm xs) :
    (sortSlice ys).map (fun i => i.Order) = (sortSlice xs).map (fun i => i.Order) := by
  have hp : ((sortSlice ys).map (fun i => i.Order)).Perm
      ((sortSlice xs).map (fun i => i.Order)) :=
    (((hsort ys).1.trans h).trans (hsort xs).1.symm).map _
  have hs : ∀ zs, ((sortSlice zs).map (fun i => i.Order)).Sorted (· ≤ ·) := by
    intro zs
    exact List.pairwise_map.2 (sortsByOrder_ascending hsort zs)
  exact List.eq_of_perm_of_sorted hp (hs ys) (hs xs)

theorem eq_of_map_order_eq (l1 l2 : List NetworkInterface)
    (h : l1.map (fun i => i.Order) = l2.map (fun i => i.Order))
    (hinj : ∀ a ∈ l1, ∀ b ∈ l2, a.Order = b.Order → a = b) : l1 = l2 := by
  induction l1 generalizing l2 with
  | nil =>
    cases l2 with
    | nil => rfl
    | cons b l2 => simp at h
  | cons a l1 ih =>
    cases l2 with
    | nil => simp at h
    | cons b l2 =>
      simp only [List.map_cons, List.cons.injEq] at h
      have hab : a = b := hinj a (List.mem_cons_self _ _) b (List.mem_cons_self _ _) h.1
      have hrest : l1 = l2 := ih l2 h.2 (fun x hx y hy hxy =>
        hinj x (List.mem_cons_of_mem _ hx) y (List.mem_cons_of_mem _ hy) hxy)
      rw [hab, hrest]

/-- With pairwise distinct order values the sorted list itself does not
depend on the arrival order. -/
theorem sortsByOrder_unique {sortSlice : List NetworkInterface → List NetworkInterface}
    (hsort : SortsByOrder sortSlice) (xs ys : List NetworkInterface) (h : ys.Perm xs)
    (hnd : (xs.map (fun i => i.Order)).Nodup) : sortSlice ys = sortSlice xs := by
  apply eq_of_map_order_eq _ _ (sortsByOrder_orders_unique hsort xs ys h)
  intro a ha b hb hab
  have ha2 : a ∈ xs := h.subset ((hsort ys).1.subset ha)
  have hb2 : b ∈ xs := (hsort xs).1.subset hb
  exact List.inj_on_of_nodup_map hnd ha2 hb2 hab

/-- The calls of a read in which every fetch succeeds, and the order of the
`network` attribute it writes. -/
theorem read_ok_networks (sortSlice : List NetworkInterface → List NetworkInterface)
    (c : Client σ) (w : World σ) (h : (resourceReadInstance sortSlice c w).1 = none) :
    ∃ inst ifs, (c.GetInstance w.d.id w.remote).1 = .ok inst ∧
      interfacesAnswer c w inst = .ok ifs ∧
      List.Forall₂ (answersInterface c) ((sortSlice ifs).map (fun i => i.UUID))
        (resourceReadInstance sortSlice c w).2.d.network ∧
      (resourceReadInstance sortSlice c w).2.calls =
        w.calls ++ [Call.GetInstance w.d.id, Call.GetInstanceInterfaces w.d.id] ++
          ((sortSlice ifs).map (fun i => i.UUID)).map Call.GetInterface ++
          [Call.GetMetadata ResourceType.TypeInstance inst.UUID] := by
  rcases read_cases sortSlice c w with ⟨err, hg, h2⟩ | ⟨inst, err, hg, hi, h2⟩ |
    ⟨inst, ifs, err, w4, hg, hi, hr, h2⟩ | ⟨inst, ifs, networks, w4, err, hg, hi, hr, hm, h2⟩ |
    ⟨inst, ifs, networks, w4, md, hg, hi, hr, hm, h2⟩
  · rw [h2] at h; cases h
  · rw [h2] at h; cases h
  · rw [h2] at h; cases h
  · rw [h2] at h; cases h
  · have hs := readInterfaces_spec c ((sortSlice ifs).map (fun i => i.UUID)) (readW3 c w inst)
    rw [hr] at hs
    obtain ⟨hc, _, hall⟩ := hs.2.2.1 networks rfl
    have hc2 : w4.calls = (readW3 c w inst).calls ++
        ((sortSlice ifs).map (fun i => i.UUID)).map Call.GetInterface := hc
    refine ⟨inst, ifs, hg, hi, ?_, ?_⟩
    · rw [h2]
      exact hall
    · rw [h2]
      show w4.calls ++ [Call.GetMetadata ResourceType.TypeInstance inst.UUID] = _
      rw [hc2, readW3_calls]
      simp

/-- C1: for any sort that meets the guarantee of `sort.Slice`, and any list
of interfaces that `GetInstanceInterfaces` answers, `getInterfaceUUIDs`
returns the UUIDs of the sorted list: a permutation of the UUIDs received,
of the same length, in ascending order of the `Order` field. Whatever the
arrival order, the order values come out in the same sequence, and with
pairwise distinct order values the UUID list is the same. A read that
succeeds fetches the interfaces in that order (its `GetInterface` calls
follow the sorted UUIDs) and writes the `network` attribute in that order,
one entry per UUID, built from the answer to `GetInterface` for it. -/
theorem interfaces_in_ascending_order
    (sortSlice : List NetworkInterface → List NetworkInterface)
    (hsort : SortsByOrder sortSlice) (c : Client σ) :
    (∀ (w : World σ) (instanceUUID : String) (ifs : List NetworkInterface),
      (c.GetInstanceInterfaces instanceUUID w.remote).1 = .ok ifs →
      (getInterfaceUUIDs sortSlice c instanceUUID w).1 =
          .ok ((sortSlice ifs).map (fun i => i.UUID)) ∧
        ((sortSlice ifs).map (fun i => i.UUID)).Perm (ifs.map (fun i => i.UUID)) ∧
        ((sortSlice ifs).map (fun i => i.UUID)).length = ifs.length ∧
        (sortSlice ifs).Perm ifs ∧
        (sortSlice ifs).Pairwise (fun a b => a.Order ≤ b.Order) ∧
        (∀ arrival : List NetworkInterface, arrival.Perm ifs →
          (sortSlice arrival).map (fun i => i.Order) =
              (sortSlice ifs).map (fun i => i.Order) ∧
            ((ifs.map (fun i => i.Order)).Nodup →
              (sortSlice arrival).map (fun i => i.UUID) =
                (sortSlice ifs).map (fun i => i.UUID)))) ∧
    (∀ w : World σ, (resourceReadInstance sortSlice c w).1 = none →
      ∃ inst ifs, (c.GetInstance w.d.id w.remote).1 = .ok inst ∧
        (getInterfaceUUIDs sortSlice c w.d.id (readW2 c w inst)).1 =
          .ok ((sortSlice ifs).map (fun i => i.UUID)) ∧
        (sortSlice ifs).Pairwise (fun a b => a.Order ≤ b.Order) ∧
        List.Forall₂ (answersInterface c) ((sortSlice ifs).map (fun i => i.UUID))
          (resourceReadInstance sortSlice c w).2.d.network ∧
        (resourceReadInstance sortSlice c w).2.calls =
          w.calls ++ [Call.GetInstance w.d.id, Call.GetInstanceInterfaces w.d.id] ++
            ((sortSlice ifs).map (fun i => i.UUID)).map Call.GetInterface ++
            [Call.GetMetadata ResourceType.TypeInstance inst.UUID]) := by
  have huuids : ∀ (w : World σ) (instanceUUID : String) (ifs : List NetworkInterface),
      (c.GetInstanceInterfaces instanceUUID w.remote).1 = .ok ifs →
      (getInterfaceUUIDs sortSlice c instanceUUID w).1 =
        .ok ((sortSlice ifs).map (fun i => i.UUID)) := by
    intro w instanceUUID ifs hget
    simp [getInterfaceUUIDs, apiGetInstanceInterfaces, hget]
  refine ⟨?_, ?_⟩
  · intro w instanceUUID ifs hget
    refine ⟨huuids w instanceUUID ifs hget, (hsort ifs).1.map _, ?_, (hsort ifs).1,
      sortsByOrder_ascending hsort ifs, ?_⟩
    · rw [List.length_map]
      exact (hsort ifs).1.length_eq
    · intro arrival hperm
      refine ⟨sortsByOrder_orders_unique hsort ifs arrival hperm, fun hnd => ?_⟩
      rw [sortsByOrder_unique hsort ifs arrival hperm hnd]
  · intro w hok
    obtain ⟨inst, ifs, hg, hi, hall, hcalls⟩ := read_ok_networks sortSlice c w hok
    exact ⟨inst, ifs, hg, huuids (readW2 c w inst) w.d.id ifs hi,
      sortsByOrder_ascending hsort ifs, hall, hcalls⟩

/-- C1, the run of the specification: interfaces arriving with orders 3, 1, 2
come out as the interface of order 1, then 2, then 3. -/
theorem interfaces_in_ascending_order_witness :
    (getInterfaceUUIDs sortByOrder (scripted shuffledScenario) "i-1"
        (startWorld [] { freshData with id := "i-1" })).1 = .ok ["if-a", "if-b", "if-c"] ∧
    (resourceReadInstance sortByOrder (scripted shuffledScenario)
        (startWorld [.ok (instanceIn "i-1" "created")]
          { freshData with id := "i-1" })).2.d.network.map (fun a => a.interface_uuid) =
      ["if-a", "if-b", "if-c"] :=
  ⟨((interfaces_in_ascending_order sortByOrder sortByOrder_sorts
      (scripted shuffledScenario)).1 (startWorld [] { freshData with id := "i-1" }) "i-1"
      [interfaceAt "if-c" 3, interfaceAt "if-a" 1, interfaceAt "if-b" 2] rfl).1, rfl⟩

end Shakenfist
